import Mathlib

/-!
Shallow embedding of the bun-db-mcp server (a TypeScript MCP server exposing
MySQL CRUD tools, prompts and one resource) together with proofs about the
properties its specification claims.

The embedding follows the TypeScript sources:
* `src/utils/validation.ts`  — identifier validation / escaping / WHERE builder;
* `src/db/connection.ts`     — the shared nullable connection handle;
* `src/tools/index.ts`       — the six tool handlers and the dispatcher;
* `src/index.ts` / `handlers.ts` — the MCP request handlers (call-tool
  envelope, prompts, resources);
* `src/transports/http.ts`   — the streamable-HTTP session store.

Conventions: thrown JavaScript exceptions are modelled with `Except String`;
the external database is modelled by recording the call that would be issued
(`DbCall`); JavaScript objects used as key/value maps are modelled as
association lists (`Object.keys` / `Object.values` enumerate in insertion
order, which the list order mirrors).
-/

/-- The apostrophe character (written numerically throughout). -/
def squoteChar : Char := Char.ofNat 39

/-- The backquote character used by MySQL identifier quoting. -/
def bquoteChar : Char := Char.ofNat 96

/-! ## `src/utils/validation.ts` -/

/-- First character admitted by the identifier regex `^[a-zA-Z_]`. -/
def isIdentStartChar (c : Char) : Bool := c.isAlpha || c = '_'

/-- Subsequent characters admitted by the identifier regex `[a-zA-Z0-9_]*$`. -/
def isIdentTailChar (c : Char) : Bool := c.isAlphanum || c = '_'

/-- `/^[a-zA-Z_][a-zA-Z0-9_]*$/.test s` : the whole string is one leading
letter-or-underscore followed by letters, digits or underscores. -/
def isValidIdent (s : String) : Bool :=
  match s.data with
  | [] => false
  | c :: cs => isIdentStartChar c && cs.all isIdentTailChar

/-- `validateTableName` from `src/utils/validation.ts` (throws on mismatch). -/
def validateTableName (table : String) : Except String Unit :=
  if isValidIdent table then Except.ok () else Except.error "Invalid table name"

/-- `validateColumnName` from `src/utils/validation.ts` (throws on mismatch). -/
def validateColumnName (column : String) : Except String Unit :=
  if isValidIdent column then Except.ok () else Except.error "Invalid column name"

/-- One step of `identifier.replace(/`/g, '``')`: backquotes are doubled. -/
def escapeIdentChar (c : Char) : List Char :=
  if c = bquoteChar then [bquoteChar, bquoteChar] else [c]

/-- `escapeIdentifier` from `src/utils/validation.ts`:
backquote-quote the identifier, doubling interior backquotes. -/
def escapeIdentifier (ident : String) : String :=
  String.mk (bquoteChar :: ((ident.data.map escapeIdentChar).flatten ++ [bquoteChar]))

/-- `Array.prototype.join(sep)` on a list of strings. -/
def joinSep (sep : String) : List String → String
  | [] => ""
  | [s] => s
  | s :: rest => s ++ sep ++ joinSep sep rest

/-- The sequential column validation `columns.forEach(validateColumnName)`
(and the validation pass inside `buildWhereClause`'s `keys.map`): the first
invalid column throws. -/
def validateColumns : List String → Except String Unit
  | [] => Except.ok ()
  | c :: rest =>
    match validateColumnName c with
    | Except.error e => Except.error e
    | Except.ok _ => validateColumns rest

/-- The `keys.map(key => { validateColumnName(key); return escaped + ' = ?' })`
pass of `buildWhereClause`, producing the per-key fragments. -/
def whereParts : List String → Except String (List String)
  | [] => Except.ok []
  | k :: rest =>
    match validateColumnName k with
    | Except.error e => Except.error e
    | Except.ok _ =>
      match whereParts rest with
      | Except.error e => Except.error e
      | Except.ok parts => Except.ok ((escapeIdentifier k ++ " = ?") :: parts)

/-- `buildWhereClause` from `src/utils/validation.ts`: validates every key,
joins `` `key` = ? `` fragments with `' AND '`, and returns the condition
values in order as the bound-parameter list. -/
def buildWhereClause (conditions : List (String × String)) :
    Except String (String × List String) :=
  match whereParts (conditions.map Prod.fst) with
  | Except.error e => Except.error e
  | Except.ok parts => Except.ok (joinSep " AND " parts, conditions.map Prod.snd)

/-! ## `src/db/connection.ts` -/

/-- One statement handed to `connection.execute(sql, params)`:
the SQL text and the ordered bound parameters. -/
structure DbCall where
  sql : String
  params : List String
deriving DecidableEq

/-- `DatabaseConnection.query`: throws `'Database not connected'` when the
handle is null, otherwise executes. The external database is opaque, so a
successful execution is recorded as the issued `DbCall`. -/
def dbQuery (connected : Bool) (sql : String) (params : List String) :
    Except String DbCall :=
  if connected then Except.ok ⟨sql, params⟩ else Except.error "Database not connected"

/-- `DatabaseConnection.connect`: installs a live handle.
(A `mysql.createConnection` failure would throw before the install; the
claims quantify over the post-state, so success is modelled.) -/
def dbConnect (_connected : Bool) : Bool := true

/-- `DatabaseConnection.disconnect`: ends the handle when live, else no-op. -/
def dbDisconnect (connected : Bool) : Bool :=
  if connected then false else connected

/-- `DatabaseConnection.isConnected`. -/
def dbIsConnected (connected : Bool) : Bool := connected

/-! ## `src/tools/index.ts` -/

/-- The argument object of one tool call, with one field per property any of
the six tools reads. A JavaScript-absent `table` surfaces as `""` (the code
only tests it for truthiness); `data` and `where` are key/value maps in
insertion order. -/
structure ToolParams where
  action : String
  sql : String
  queryParams : List String
  table : String
  data : List (String × String)
  whereConds : List (String × String)
deriving DecidableEq

/-- The normalized result object a tool handler resolves with. Row sets and
affected-row counts come from the opaque external database, so results that
depend on them carry the issued `DbCall` instead. -/
inductive ToolResult where
  | connStatus (status : String)
  | connFlag (connected : Bool)
  | queryRows (call : DbCall)
  | mutation (call : DbCall)
  | schema (call : DbCall)
deriving DecidableEq

/-- `handleConnection`: connect / disconnect / status, unknown action throws.
Returns the result together with the new state of the shared handle. -/
def handleConnection (connected : Bool) (p : ToolParams) :
    Except String (ToolResult × Bool) :=
  if p.action = "connect" then
    Except.ok (ToolResult.connStatus "connected", dbConnect connected)
  else if p.action = "disconnect" then
    Except.ok (ToolResult.connStatus "disconnected", dbDisconnect connected)
  else if p.action = "status" then
    Except.ok (ToolResult.connFlag (dbIsConnected connected), connected)
  else
    Except.error ("Unknown action: " ++ p.action)

/-- Characters removed by `String.prototype.trim` (the ASCII members of the
ECMAScript WhiteSpace / LineTerminator sets). -/
def jsWhitespaceChar (c : Char) : Bool :=
  c = ' ' || c = '\t' || c = '\n' || c = '\r' || c = Char.ofNat 11 || c = Char.ofNat 12

/-- `String.prototype.trim`: strip leading and trailing whitespace. -/
def jsTrim (s : String) : String :=
  String.mk (((s.data.dropWhile jsWhitespaceChar).reverse.dropWhile jsWhitespaceChar).reverse)

/-- `String.prototype.toUpperCase` on the ASCII range (the `SELECT` keyword
check only involves ASCII). -/
def asciiUpperChar (c : Char) : Char :=
  if 'a' ≤ c && c ≤ 'z' then Char.ofNat (c.toNat - 32) else c

/-- `String.prototype.toUpperCase`. -/
def jsToUpperCase (s : String) : String :=
  String.mk (s.data.map asciiUpperChar)

/-- `String.prototype.startsWith`. -/
def jsStartsWith (s pre : String) : Bool :=
  pre.data.isPrefixOf s.data

/-- `handleQuery`: trims, upper-cases, requires a `SELECT` prefix, then
executes the original `params.sql` with `params.params`. -/
def handleQuery (connected : Bool) (p : ToolParams) : Except String ToolResult :=
  if !(jsStartsWith (jsToUpperCase (jsTrim p.sql)) "SELECT") then
    Except.error "Only SELECT queries are allowed in query tool"
  else
    match dbQuery connected p.sql p.queryParams with
    | Except.error e => Except.error e
    | Except.ok call => Except.ok (ToolResult.queryRows call)

/-- The INSERT statement text built by `handleCreate` from the (validated)
table name and data keys. -/
def createSql (table : String) (columns : List String) : String :=
  "INSERT INTO " ++ escapeIdentifier table ++ " (" ++
    joinSep ", " (columns.map escapeIdentifier) ++ ") VALUES (" ++
    joinSep ", " (columns.map fun _ => "?") ++ ")"

/-- `handleCreate`: validate the table, validate every data key, then issue
the parameterized INSERT with the data values as bound parameters. -/
def handleCreate (connected : Bool) (p : ToolParams) : Except String ToolResult :=
  match validateTableName p.table with
  | Except.error e => Except.error e
  | Except.ok _ =>
    match validateColumns (p.data.map Prod.fst) with
    | Except.error e => Except.error e
    | Except.ok _ =>
      match dbQuery connected (createSql p.table (p.data.map Prod.fst)) (p.data.map Prod.snd) with
      | Except.error e => Except.error e
      | Except.ok call => Except.ok (ToolResult.mutation call)

/-- The UPDATE statement text built by `handleUpdate` from the table, the
data keys, and the WHERE clause text. -/
def updateSql (table : String) (dataKeys : List String) (whereClause : String) : String :=
  "UPDATE " ++ escapeIdentifier table ++ " SET " ++
    joinSep ", " (dataKeys.map fun k => escapeIdentifier k ++ " = ?") ++
    " WHERE " ++ whereClause

/-- `handleUpdate`: validate the table and data keys, build the WHERE clause
(validating its keys), then issue the parameterized UPDATE whose bound
parameters are the data values followed by the where values. -/
def handleUpdate (connected : Bool) (p : ToolParams) : Except String ToolResult :=
  match validateTableName p.table with
  | Except.error e => Except.error e
  | Except.ok _ =>
    match validateColumns (p.data.map Prod.fst) with
    | Except.error e => Except.error e
    | Except.ok _ =>
      match buildWhereClause p.whereConds with
      | Except.error e => Except.error e
      | Except.ok wc =>
        match dbQuery connected (updateSql p.table (p.data.map Prod.fst) wc.1)
            (p.data.map Prod.snd ++ wc.2) with
        | Except.error e => Except.error e
        | Except.ok call => Except.ok (ToolResult.mutation call)

/-- The DELETE statement text built by `handleDelete`. -/
def deleteSql (table : String) (whereClause : String) : String :=
  "DELETE FROM " ++ escapeIdentifier table ++ " WHERE " ++ whereClause

/-- `handleDelete`: validate the table, build the WHERE clause, issue the
parameterized DELETE with the where values as bound parameters. -/
def handleDelete (connected : Bool) (p : ToolParams) : Except String ToolResult :=
  match validateTableName p.table with
  | Except.error e => Except.error e
  | Except.ok _ =>
    match buildWhereClause p.whereConds with
    | Except.error e => Except.error e
    | Except.ok wc =>
      match dbQuery connected (deleteSql p.table wc.1) wc.2 with
      | Except.error e => Except.error e
      | Except.ok call => Except.ok (ToolResult.mutation call)

/-- The catalog query `handleReadSchema` issues for one table's columns. -/
def readSchemaColumnsSql : String :=
  "\n      SELECT \n        COLUMN_NAME as name,\n        DATA_TYPE as type,\n        IS_NULLABLE as nullable,\n        COLUMN_KEY as \x60key\x60,\n        COLUMN_DEFAULT as defaultValue,\n        EXTRA as extra\n      FROM INFORMATION_SCHEMA.COLUMNS\n      WHERE TABLE_SCHEMA = ? AND TABLE_NAME = ?\n      ORDER BY ORDINAL_POSITION\n    "

/-- The catalog query `handleReadSchema` issues for the all-tables summary. -/
def readSchemaTablesSql : String :=
  "\n      SELECT \n        TABLE_NAME as tableName,\n        TABLE_ROWS as rowCount,\n        DATA_LENGTH as dataLength\n      FROM INFORMATION_SCHEMA.TABLES\n      WHERE TABLE_SCHEMA = ?\n    "

/-- `handleReadSchema`: with a (truthy) `table` argument, validate it and
query that table's columns; otherwise query the all-tables summary.
`dbName` is `process.env.DB_DATABASE`. -/
def handleReadSchema (connected : Bool) (dbName : String) (p : ToolParams) :
    Except String ToolResult :=
  if p.table ≠ "" then
    match validateTableName p.table with
    | Except.error e => Except.error e
    | Except.ok _ =>
      match dbQuery connected readSchemaColumnsSql [dbName, p.table] with
      | Except.error e => Except.error e
      | Except.ok call => Except.ok (ToolResult.schema call)
  else
    match dbQuery connected readSchemaTablesSql [dbName] with
    | Except.error e => Except.error e
    | Except.ok call => Except.ok (ToolResult.schema call)

/-- `handleToolCall`: dispatch on the tool name; unknown names throw
`Unknown tool: <name>`. Returns the result with the (possibly updated)
shared-connection state. -/
def handleToolCall (connected : Bool) (dbName : String) (toolName : String)
    (p : ToolParams) : Except String (ToolResult × Bool) :=
  if toolName = "connection" then
    handleConnection connected p
  else if toolName = "query" then
    (handleQuery connected p).map fun r => (r, connected)
  else if toolName = "create" then
    (handleCreate connected p).map fun r => (r, connected)
  else if toolName = "update" then
    (handleUpdate connected p).map fun r => (r, connected)
  else if toolName = "delete" then
    (handleDelete connected p).map fun r => (r, connected)
  else if toolName = "readSchema" then
    (handleReadSchema connected dbName p).map fun r => (r, connected)
  else
    Except.error ("Unknown tool: " ++ toolName)

/-- The uniform content envelope the call-tool request handler returns. -/
structure ToolResponse where
  text : String
  isError : Bool
deriving DecidableEq

/-- Stand-in for `JSON.stringify(result, null, 2)` on the success path: the
exact JSON rendering carries database-produced data the embedding keeps
opaque, and no verified property inspects it. -/
def renderToolResult : ToolResult → String
  | ToolResult.connStatus s => "status: " ++ s
  | ToolResult.connFlag b => "connected: " ++ (if b then "true" else "false")
  | ToolResult.queryRows c => "rows of: " ++ c.sql
  | ToolResult.mutation c => "result of: " ++ c.sql
  | ToolResult.schema c => "schema of: " ++ c.sql

/-- The `CallToolRequestSchema` handler (identical in `src/index.ts` and
`handlers.ts`): every exception from `handleToolCall` is caught and encoded
as a text envelope flagged `isError`; nothing propagates. -/
def callToolRequestHandler (connected : Bool) (dbName : String)
    (toolName : String) (p : ToolParams) : ToolResponse × Bool :=
  match handleToolCall connected dbName toolName p with
  | Except.ok (r, connected2) => (⟨renderToolResult r, false⟩, connected2)
  | Except.error msg => (⟨"Error: " ++ msg, true⟩, connected)

/-! ## SQL metacharacters (the character-set analysis behind the
injection-safety property) -/

/-- SQL metacharacters in the sense of the specification's injection example
`'; DROP TABLE--`: the string quote, the statement separator and the comment
dash. None of them can be produced by the SQL builders. -/
def sqlMetaChar (c : Char) : Bool :=
  c = squoteChar || c = ';' || c = '-'

/-- A string none of whose characters is an SQL metacharacter. -/
def sqlSafe (s : String) : Prop :=
  ∀ c ∈ s.data, sqlMetaChar c = false

/-! ## `src/transports/http.ts`: the streamable-HTTP session store -/

/-- The keys of the `httpTransports` map: the identifiers of the live
sessions. A `Finset` because `Map` keys are unique. -/
abbrev SessionStore := Finset String

/-- JavaScript truthiness of the optional `mcp-session-id` header
(`undefined` and the empty string are falsy). -/
def headerTruthy : Option String → Bool
  | some s => !(s = "")
  | none => false

/-- The header's value where the code uses it after the truthiness test. -/
def headerValue (h : Option String) : String := h.getD ""

/-- An HTTP-level rejection: status code plus the JSON-RPC error code when a
JSON-RPC error body is written (`none` for the plain-text 400/500 bodies). -/
structure HttpReject where
  status : Nat
  rpcCode : Option Int
deriving DecidableEq

/-- Outcome of `mcpPostHandler`: either the request is handed to a transport
bound to the given session id, or it is rejected. -/
inductive PostOutcome where
  | handled (sessionId : String)
  | rejected (resp : HttpReject)
deriving DecidableEq

/-- `mcpPostHandler`: reuse the transport when the header names a live
session; otherwise, with no (truthy) header and an `initialize` body, create
a fresh transport whose generated id `newId` is installed in the store (the
SDK transport invokes `onsessioninitialized`, which performs
`httpTransports.set`, while handling the initialize request — that callback
wiring is in `src/transports/http.ts`); any other combination is rejected
with HTTP 400 and JSON-RPC code `-32000` and the store is untouched. -/
def mcpPostHandler (store : SessionStore) (header : Option String)
    (isInit : Bool) (newId : String) : PostOutcome × SessionStore :=
  if headerTruthy header ∧ headerValue header ∈ store then
    (PostOutcome.handled (headerValue header), store)
  else if ¬ headerTruthy header ∧ isInit then
    (PostOutcome.handled newId, insert newId store)
  else
    (PostOutcome.rejected ⟨400, some (-32000)⟩, store)

/-- `mcpGetHandler`: a missing or unknown session id is rejected with a
plain 400 (`Invalid or missing session ID`); a live one is handed to its
transport (no rejection, store unchanged). -/
def mcpGetHandler (store : SessionStore) (header : Option String) :
    Option HttpReject × SessionStore :=
  if ¬ headerTruthy header ∨ headerValue header ∉ store then
    (some ⟨400, none⟩, store)
  else
    (none, store)

/-- `mcpDeleteHandler`: a missing or unknown session id is rejected with a
plain 400; a live one is handed to its transport for termination.

Modelled from the spec: the SDK transport's handling of a DELETE request
(code outside this repository) terminates the session and fires the
`onsessionclosed` callback registered in `src/transports/http.ts`, which
evicts the id from `httpTransports` (`DELETE-style requests terminate and
evict the session`). -/
def mcpDeleteHandler (store : SessionStore) (header : Option String) :
    Option HttpReject × SessionStore :=
  if ¬ headerTruthy header ∨ headerValue header ∉ store then
    (some ⟨400, none⟩, store)
  else
    (none, store.erase (headerValue header))

/-! ## `String.prototype.replace` with a string pattern (used by the
prompt handlers) -/

/-- ECMAScript `GetSubstitution` for a string replacement: scans the
replacement text for `$$` (a dollar), `$&` (the matched text), `` $` `` (the
text before the match) and `$'` (the text after the match); any other use of
`$` is literal. (With a string pattern there are no capture groups, so
`$<n>` and `$<name>` stay literal.) -/
def jsSubstitution (matched before after : List Char) : List Char → List Char
  | [] => []
  | c :: rest =>
    if c = '$' then
      match rest with
      | [] => ['$']
      | d :: rest2 =>
        if d = '$' then '$' :: jsSubstitution matched before after rest2
        else if d = '&' then matched ++ jsSubstitution matched before after rest2
        else if d = bquoteChar then before ++ jsSubstitution matched before after rest2
        else if d = squoteChar then after ++ jsSubstitution matched before after rest2
        else '$' :: d :: jsSubstitution matched before after rest2
    else c :: jsSubstitution matched before after rest

/-- `String.prototype.indexOf` as a character index: the first position at
which `pat` occurs in `hay`, if any. -/
def findSubIndex (hay pat : List Char) : Option Nat :=
  if pat.isPrefixOf hay then some 0
  else
    match hay with
    | [] => none
    | _ :: t => (findSubIndex t pat).map fun n => n + 1

/-- `s.replace(pat, repl)` with a string pattern: replaces only the first
occurrence of `pat`, substituting `repl` per `jsSubstitution`; with no
occurrence the string is returned unchanged. -/
def jsReplaceFirst (s pat repl : String) : String :=
  match findSubIndex s.data pat.data with
  | none => s
  | some i =>
    String.mk (s.data.take i ++
      jsSubstitution pat.data (s.data.take i) (s.data.drop (i + pat.data.length))
        repl.data ++
      s.data.drop (i + pat.data.length))

/-- Modelled from the spec: `substituted verbatim into a template` — replace
the first occurrence of the placeholder by the argument text itself, with no
interpretation of the argument. This is the specification's reading of the
substitution, stated for comparison with `jsReplaceFirst`. -/
def specVerbatimReplaceFirst (s pat repl : String) : String :=
  match findSubIndex s.data pat.data with
  | none => s
  | some i =>
    String.mk (s.data.take i ++ repl.data ++ s.data.drop (i + pat.data.length))

/-- A contiguous slice of `specs/query-employees.md` (before the `$ARGUMENTS` placeholder). -/
def queryEmployeesTemplatePre : String :=
  "You are a database query assistant. The user wants to query the \x60employees.employees\x60 table in a MySQL database using natural language instructions.\n\n## Your Task\n\nBased on the user\x27s instructions: \""

/-- A contiguous slice of `specs/query-employees.md` (after the `$ARGUMENTS` placeholder). -/
def queryEmployeesTemplatePost : String :=
  "\"\n\nExecute the following steps using the bun-db-mcp MCP server tools:\n\nStep 1. First, call *connect* tool to connect to the database, make sure the connection is successful by executing \"select 1 from employees.employees limit 1\" with the *query* tool\nStep 2. Read the schema of the \x60employees.employees\x60 table\nStep 3. Generate an appropriate SQL query based on the user\x27s natural language instructions\nStep 4. Execute the query\nStep 5. display results using *query\n\n## SQL Generation Guidelines\n\nParse the user\x27s instructions to identify:\n- **Filters**: gender (male/female), hire dates (before/after/in year), birth dates, names\n- **Ordering**: latest/recent (hire_date DESC), oldest (hire_date ASC), youngest (birth_date DESC)\n- **Limits**: top N, first N, limit N\n- **Aggregations**: count, how many (use COUNT(*))\n- **Columns**: Default to all columns unless specific ones mentioned\n\nExamples of instruction patterns to SQL:\n- \"count female employees\" \u2192 \x60SELECT COUNT(*) as total FROM employees.employees WHERE gender = \x27F\x27\x60\n- \"show employees hired after 1990 limit 10\" \u2192 \x60SELECT * FROM employees.employees WHERE hire_date > \x271990-01-01\x27 LIMIT 10\x60\n- \"find male employees born in 1965\" \u2192 \x60SELECT * FROM employees.employees WHERE gender = \x27M\x27 AND YEAR(birth_date) = 1965\x60\n- \"list 5 most recent hires\" \u2192 \x60SELECT * FROM employees.employees ORDER BY hire_date DESC LIMIT 5\x60\n- \"employees with first name John\" \u2192 \x60SELECT * FROM employees.employees WHERE first_name = \x27John\x27\x60\n\n## Output Format\n\nDisplay:\n1. Before doing each Step, display the Step number and the Step description\n2. The generated SQL query\n3. Results in a table format (for regular queries) or count (for aggregations)\n4. Total number of records returned\n5. Any errors encountered\n"

/-- The contents of `specs/query-employees.md` (the prompt template file): its slices
in order, around the single `$ARGUMENTS` placeholder. -/
def queryEmployeesTemplate : String :=
  queryEmployeesTemplatePre ++ "$ARGUMENTS" ++ queryEmployeesTemplatePost

/-- A contiguous slice of `specs/insert-employee-info.md` (before the `$ARGUMENTS` placeholder). -/
def insertEmployeeTemplatePre : String :=
  "You are a database insertion assistant. The user wants to insert a new employee into a MySQL database with proper relationships across multiple tables.\n\n## Database Schema Context\n\n### Tables Structure:\n1. **employees** - Core employee information (emp_no, birth_date, first_name, last_name, gender, hire_date)\n2. **departments** - Department information (dept_no, dept_name)\n3. **dept_emp** - Employee-department associations (emp_no, dept_no, from_date, to_date)\n4. **dept_manager** - Manager assignments (emp_no, dept_no, from_date, to_date)\n5. **titles** - Job titles (emp_no, title, from_date, to_date)\n6. **salaries** - Salary records (emp_no, salary, from_date, to_date)\n\n### Important Constraints:\n- \x60emp_no\x60 is the primary key in employees table and foreign key in all related tables\n- \x60dept_no\x60 format is CHAR(4) like \x27d001\x27, \x27d002\x27, etc.\n- Dates use \x27YYYY-MM-DD\x27 format\n- Use \x279999-01-01\x27 for \x60to_date\x60 to indicate current/active records\n- Gender must be \x27M\x27 or \x27F\x27\n\n## Your Task\n\nBased on the user\x27s instructions: \""

/-- A contiguous slice of `specs/insert-employee-info.md` (after the `$ARGUMENTS` placeholder). -/
def insertEmployeeTemplatePost1 : String :=
  "\"\n\nExecute the following steps using the bun-db-mcp MCP server tools:\n\n### Step 1: Connect and Verify\n- Call *connection* tool with action \"connect\" to establish database connection\n- Verify connection by executing: \x60SELECT 1 FROM employees.employees LIMIT 1\x60 using *query* tool\n\n### Step 2: Generate Employee Number\n- Query for the next available employee number: \x60SELECT MAX(emp_no) + 1 as next_emp_no FROM employees.employees\x60\n- Store this number for use in subsequent insertions\n\n### Step 3: Check Department Exists\n- Parse user input to extract department name or number\n- Query: \x60SELECT dept_no, dept_name FROM employees.departments WHERE dept_name LIKE \x27%[department]%\x27 OR dept_no = \x27[dept_no]\x27\x60\n- If department doesn\x27t exist, list available departments\n\n### Step 4: Insert Employee Record\n- Insert into employees table using *create* tool\n- Required fields: emp_no, birth_date, first_name, last_name, gender, hire_date\n- Use today\x27s date for hire_date if not specified\n\n### Step 5: Insert Department Association\n- Insert into dept_emp table using *create* tool\n- Set from_date to hire_date, to_date to \x279999-01-01\x27\n\n### Step 6: Insert Title Record\n- Insert into titles table using *create* tool\n- Parse job title from user input (default to \x27Staff\x27 if not specified)\n- Set from_date to hire_date, to_date to \x279999-01-01\x27\n\n### Step 7: Insert Salary Record\n- Insert into salaries table using *create* tool\n- Parse salary from user input\n- Set from_date to hire_date, to_date to \x279999-01-01\x27\n\n### Step 8: Verify Insertion\n- Query all inserted records to confirm successful creation:\n\x60\x60\x60sql\nSELECT e.*, d.dept_name, t.title, s.salary\nFROM employees.employees e\nJOIN employees.dept_emp de ON e.emp_no = de.emp_no\nJOIN employees.departments d ON de.dept_no = d.dept_no\nJOIN employees.titles t ON e.emp_no = t.emp_no\nJOIN employees.salaries s ON e.emp_no = s.emp_no\nWHERE e.emp_no = [new_emp_no]\nAND de.to_date = \x279999-01-01\x27\nAND t.to_date = \x279999-01-01\x27\nAND s.to_date = \x279999-01-01\x27\n\x60\x60\x60\n\n## Input Parsing Guidelines\n\nParse the user\x27s instructions to extract:\n- **First Name**: Required field\n- **Last Name**: Required field\n- **Birth Date**: Format as \x27YYYY-MM-DD\x27\n- **Gender**: M/F, Male/Female, Man/Woman \u2192 convert to \x27M\x27 or \x27F\x27\n- **Department**: Match against existing departments\n- **Title**: Job title (e.g., \"Engineer\", \"Senior Staff\", \"Manager\")\n- **Salary**: Numeric value\n- **Hire Date**: Default to today if not specified\n- **Is Manager**: If specified, also insert into dept_manager tabl"

/-- A contiguous slice of `specs/insert-employee-info.md` (after the `$ARGUMENTS` placeholder). -/
def insertEmployeeTemplatePost2 : String :=
  "e\n\nExample input patterns:\n- \"Add John Smith, born 1985-03-15, male, to Engineering as Senior Engineer with salary 75000\"\n- \"Create new employee: Jane Doe, female, DOB 1990-07-22, Marketing department, Manager, "

/-- A contiguous slice of `specs/insert-employee-info.md` (after the `$ARGUMENTS` placeholder). -/
def insertEmployeeTemplatePost3 : String :=
  "$85000\"\n- \"Insert employee Bob Johnson born on 1988-11-30, Development, Software Engineer, 65000 salary\"\n\n## Output Format\n\nDisplay:\n1. Step-by-step progress with step number and description\n2. Generated employee number\n3. Each SQL operation performed\n4. Confirmation of each successful insertion\n5. Final summary showing the complete employee record with all relationships\n6. Any errors encountered with suggested fixes\n\n## Error Handling\n\nCommon issues to handle:\n- Duplicate employee numbers \u2192 generate new number\n- Non-existent department \u2192 list available departments\n- Invalid date formats \u2192 provide correct format example\n- Missing required fields \u2192 prompt for missing information\n- Foreign key violations \u2192 check referenced records exist"

/-- The contents of `specs/insert-employee-info.md` (the prompt template file): its slices
in order, around the single `$ARGUMENTS` placeholder. -/
def insertEmployeeTemplate : String :=
  insertEmployeeTemplatePre ++ "$ARGUMENTS" ++ insertEmployeeTemplatePost1 ++ insertEmployeeTemplatePost2 ++ insertEmployeeTemplatePost3

/-- A contiguous slice of `specs/delete-employee.md` (before the `$ARGUMENTS` placeholder). -/
def deleteEmployeeTemplatePre : String :=
  "You are a database deletion assistant. The user wants to delete an employee from a MySQL database, which requires removing records from multiple related tables due to foreign key constraints.\n\n## Database Schema Context\n\n### Tables with Employee Records:\n1. **employees** - Core employee information (Primary table)\n2. **dept_emp** - Employee-department associations\n3. **dept_manager** - Manager assignments\n4. **titles** - Job titles history\n5. **salaries** - Salary records\n\n### Foreign Key Relationships:\n- All related tables reference \x60emp_no\x60 from the employees table\n- Records must be deleted in reverse order of dependencies to avoid foreign key violations\n- Delete from child tables first, then parent table\n\n## Your Task\n\nBased on the user\x27s instructions: \""

/-- A contiguous slice of `specs/delete-employee.md` (after the `$ARGUMENTS` placeholder). -/
def deleteEmployeeTemplatePost1 : String :=
  "\"\n\nExecute the following steps using the bun-db-mcp MCP server tools:\n\n### Step 1: Connect and Verify\n- Call *connection* tool with action \"connect\" to establish database connection\n- Verify connection by executing: \x60SELECT 1 FROM employees.employees LIMIT 1\x60 using *query* tool\n\n### Step 2: Identify Employee\nParse user input to identify the employee:\n- By employee number: \x60SELECT * FROM employees.employees WHERE emp_no = [number]\x60\n- By name: \x60SELECT * FROM employees.employees WHERE first_name = \x27[first]\x27 AND last_name = \x27[last]\x27\x60\n- If multiple matches found, list them and ask for clarification\n\n### Step 3: Check Employee Exists and Show Details\nQuery complete employee information before deletion:\n\x60\x60\x60sql\nSELECT e.*, \n       GROUP_CONCAT(DISTINCT d.dept_name) as departments,\n       GROUP_CONCAT(DISTINCT t.title) as titles,\n       COUNT(DISTINCT s.salary) as salary_records\nFROM employees.employees e\nLEFT JOIN employees.dept_emp de ON e.emp_no = de.emp_no\nLEFT JOIN employees.departments d ON de.dept_no = d.dept_no\nLEFT JOIN employees.titles t ON e.emp_no = t.emp_no\nLEFT JOIN employees.salaries s ON e.emp_no = s.emp_no\nWHERE e.emp_no = [emp_no]\nGROUP BY e.emp_no\n\x60\x60\x60\n\n### Step 4: Check for Manager Status\nVerify if employee is currently a manager:\n\x60\x60\x60sql\nSELECT d.dept_name, dm.from_date, dm.to_date \nFROM employees.dept_manager dm\nJOIN employees.departments d ON dm.dept_no = d.dept_no\nWHERE dm.emp_no = [emp_no] AND dm.to_date = \x279999-01-01\x27\n\x60\x60\x60\nIf employee is a current manager, warn user about department impact.\n\n### Step 5: Delete from Salaries Table\nUse *delete* tool:\n- Table: \"employees.salaries\"\n- Where: \x7b\"emp_no\": [emp_no]\x7d\n\n### Step 6: Delete from Titles Table\nUse *delete* tool:\n- Table: \"employees.titles\"\n- Where: \x7b\"emp_no\": [emp_no]\x7d\n\n### Step 7: Delete from Department Employee Table\nUse *delete* tool:\n- Table: \"employees.dept_emp\"\n- Where: \x7b\"emp_no\": [emp_no]\x7d\n\n### Step 8: Delete from Department Manager Table (if applicable)\nCheck if employee has manager records:\n\x60\x60\x60sql\nSELECT COUNT(*) FROM employees.dept_manager WHERE emp_no = [emp_no]\n\x60\x60\x60\nIf records exist, use *delete* tool:\n- Table: \"employees.dept_manager\"\n- Where: \x7b\"emp_no\": [emp_no]\x7d\n\n### Step 9: Delete from Employees Table\nFinally, delete the main employee record using *delete* tool:\n- Table: \"employees.employees\"\n- Where: \x7b\"emp_no\": [emp_no]\x7d\n\n### Step 10: Verify Deletion\nConfirm the employee has been completely removed:\n\x60\x60\x60sql\nSELECT COUNT(*) as remaining_records FROM employees.employees WHERE em"

/-- A contiguous slice of `specs/delete-employee.md` (after the `$ARGUMENTS` placeholder). -/
def deleteEmployeeTemplatePost2 : String :=
  "p_no = [emp_no]\n\x60\x60\x60\n\n## Input Parsing Guidelines\n\nParse the user\x27s instructions to identify:\n- **Employee Number**: Direct numeric identifier (e.g., \"500001\", \"emp_no 10005\")\n- **Employee Name**: First and/or last name (e.g., \"John Smith\", \"delete Smith\")\n- **Confirmation**: Look for keywords like \"confirm\", \"yes\", \"proceed\"\n\nExample input patterns:\n- \"Delete employee 10001\"\n- \"Remove John Smith from the database\"\n- \"Delete employee with emp_no 500123\"\n- \"Remove all records for employee Jane Doe\"\n\n## Output Format\n\nDisplay:\n1. Step-by-step progress with step number and description\n2. Employee details before deletion (for confirmation)\n3. Warning if employee is a current manager\n4. Count of records deleted from each table\n5. Final confirmation that employee has been removed\n6. Any errors encountered\n\n## Safety Measures\n\n1. **Show employee details** before deletion for verification\n2. **Warn about manager status** if employee manages a department\n3. **Count records** in each table before deletion\n4. **Confirm complete removal** after deletion\n5. **Handle cascading deletes** properly to maintain referential integrity\n\n## Error Handling\n\nCommon issues to handle:\n- Employee not found \u2192 Show search results or suggest corrections\n- Foreign key violations \u2192 Ensure proper deletion order\n- Multiple employees with same name \u2192 List all and request specific emp_no\n- Partial deletion failure \u2192 Rollback or report which tables were affected\n- Connection issues \u2192 Attempt reconnection before operations"

/-- The contents of `specs/delete-employee.md` (the prompt template file): its slices
in order, around the single `$ARGUMENTS` placeholder. -/
def deleteEmployeeTemplate : String :=
  deleteEmployeeTemplatePre ++ "$ARGUMENTS" ++ deleteEmployeeTemplatePost1 ++ deleteEmployeeTemplatePost2

/-- A contiguous slice of `specs/manage-departments.md` (before the `$ARGUMENTS` placeholder). -/
def manageDepartmentsTemplatePre : String :=
  "You are a department management assistant. The user wants to either insert a new department or delete an existing department from a MySQL database.\n\n## Database Schema Context\n\n### Department-Related Tables:\n1. **departments** - Core department information (dept_no, dept_name)\n2. **dept_emp** - Links employees to departments\n3. **dept_manager** - Links managers to departments\n\n### Key Constraints:\n- \x60dept_no\x60 format: CHAR(4) like \x27d001\x27, \x27d002\x27, etc.\n- \x60dept_no\x60 is primary key in departments table\n- \x60dept_no\x60 is foreign key in dept_emp and dept_manager tables\n- Department names should be unique\n\n## Your Task\n\nBased on the user\x27s instructions: \""

/-- A contiguous slice of `specs/manage-departments.md` (after the `$ARGUMENTS` placeholder). -/
def manageDepartmentsTemplatePost1 : String :=
  "\"\n\nDetermine the operation (INSERT or DELETE) and execute appropriate steps using the bun-db-mcp MCP server tools:\n\n### Step 1: Connect and Verify\n- Call *connection* tool with action \"connect\" to establish database connection\n- Verify connection by executing: \x60SELECT 1 FROM employees.departments LIMIT 1\x60 using *query* tool\n\n### Step 2: Determine Operation\nParse user input for action keywords:\n- INSERT keywords: \"add\", \"create\", \"insert\", \"new\"\n- DELETE keywords: \"delete\", \"remove\", \"drop\"\n\n## For INSERT Operation:\n\n### Step 3A: Generate Department Number\nQuery for the next available department number:\n\x60\x60\x60sql\nSELECT \n  CONCAT(\x27d\x27, LPAD(CAST(SUBSTRING(MAX(dept_no), 2) AS UNSIGNED) + 1, 3, \x270\x27)) as next_dept_no\nFROM employees.departments\n\x60\x60\x60\n\n### Step 4A: Check Department Name Uniqueness\nVerify the department name doesn\x27t already exist:\n\x60\x60\x60sql\nSELECT dept_no, dept_name \nFROM employees.departments \nWHERE LOWER(dept_name) = LOWER(\x27[proposed_name]\x27)\n\x60\x60\x60\n\n### Step 5A: Insert New Department\nUse *create* tool:\n- Table: \"employees.departments\"\n- Data: \x7b\n    \"dept_no\": \"[generated_dept_no]\",\n    \"dept_name\": \"[department_name]\"\n  \x7d\n\n### Step 6A: Verify Insertion\nConfirm the new department was created:\n\x60\x60\x60sql\nSELECT * FROM employees.departments WHERE dept_no = \x27[new_dept_no]\x27\n\x60\x60\x60\n\n### Step 7A: Optional - Assign Manager\nIf manager information provided in input:\n- Parse employee identifier (name or emp_no)\n- Verify employee exists\n- Insert into dept_manager table with from_date as today and to_date as \x279999-01-01\x27\n\n## For DELETE Operation:\n\n### Step 3B: Identify Department\nParse user input to identify the department:\n- By department number: \x60SELECT * FROM employees.departments WHERE dept_no = \x27[dept_no]\x27\x60\n- By department name: \x60SELECT * FROM employees.departments WHERE dept_name LIKE \x27%[name]%\x27\x60\n\n### Step 4B: Check Department Dependencies\nBefore deletion, check for active relationships:\n\x60\x60\x60sql\nSELECT \n  (SELECT COUNT(*) FROM employees.dept_emp \n   WHERE dept_no = \x27[dept_no]\x27 AND to_date = \x279999-01-01\x27) as active_employees,\n  (SELECT COUNT(*) FROM employees.dept_emp \n   WHERE dept_no = \x27[dept_no]\x27) as total_employee_records,\n  (SELECT COUNT(*) FROM employees.dept_manager \n   WHERE dept_no = \x27[dept_no]\x27 AND to_date = \x279999-01-01\x27) as active_managers,\n  (SELECT COUNT(*) FROM employees.dept_manager \n   WHERE dept_no = \x27[dept_no]\x27) as total_manager_records\n\x60\x60\x60\n\n### Step 5B: Warning for Active Department\nIf department has active employees or managers:\n- Display count of acti"

/-- A contiguous slice of `specs/manage-departments.md` (after the `$ARGUMENTS` placeholder). -/
def manageDepartmentsTemplatePost2 : String :=
  "ve employees\n- Display current manager(s) information\n- Warn user about impact\n- Suggest updating to_date instead of deletion for historical preservation\n\n### Step 6B: Delete Department Records\nIf user confirms deletion (or forced deletion):\n\n1. Delete from dept_manager table:\n   - Use *delete* tool: \x7b\"dept_no\": \"[dept_no]\"\x7d\n   \n2. Delete from dept_emp table:\n   - Use *delete* tool: \x7b\"dept_no\": \"[dept_no]\"\x7d\n   \n3. Delete from departments table:\n   - Use *delete* tool: \x7b\"dept_no\": \"[dept_no]\"\x7d\n\n### Step 7B: Verify Deletion\nConfirm the department has been removed:\n\x60\x60\x60sql\nSELECT COUNT(*) as remaining FROM employees.departments WHERE dept_no = \x27[dept_no]\x27\n\x60\x60\x60\n\n## Input Parsing Guidelines\n\nParse the user\x27s instructions to extract:\n\n**For INSERT:**\n- Department name (required)\n- Manager assignment (optional): employee name or number\n- Effective date (optional): defaults to today\n\n**For DELETE:**\n- Department identifier: name or dept_no\n- Force flag: keywords like \"force\", \"cascade\", \"confirm\"\n\nExample input patterns:\n- \"Add new department called Research and Development\"\n- \"Create department Marketing with John Smith as manager\"\n- \"Insert department: Customer Service\"\n- \"Delete department d005\"\n- \"Remove Marketing department\"\n- \"Drop Development department even if it has employees\"\n\n## Output Format\n\nDisplay:\n1. Operation type detected (INSERT or DELETE)\n2. Step-by-step progress with step number and description\n3. For INSERT: Generated department number and confirmation\n4. For DELETE: Department details and dependency counts before deletion\n5. Warnings about data impact\n6. Final confirmation of operation success\n7. Any errors encountered\n\n## Safety Measures\n\n**For INSERT:**\n- Check for duplicate department names\n- Validate department number format\n- Verify manager exists if specified\n\n**For DELETE:**\n- Show dependency counts before deletion\n- Warn about active employees/managers\n- Require confirmation for departments with active records\n- Suggest alternatives (like setting end dates) for historical data\n\n## Error Handling\n\nCommon issues to handle:\n- Duplicate department name \u2192 Show existing department\n- Invalid department number format \u2192 Generate correct format\n- Department not found \u2192 List similar departments\n- Foreign key violations \u2192 Show dependent records\n- Manager not found \u2192 List available employees\n- Cascading delete issues \u2192 Report affected tables"

/-- The contents of `specs/manage-departments.md` (the prompt template file): its slices
in order, around the single `$ARGUMENTS` placeholder. -/
def manageDepartmentsTemplate : String :=
  manageDepartmentsTemplatePre ++ "$ARGUMENTS" ++ manageDepartmentsTemplatePost1 ++ manageDepartmentsTemplatePost2

/-! ## The prompt and resource request handlers
(`src/index.ts` / `handlers.ts`, identical registrations) -/

/-- One message of a prompt result (`role` is always `"user"` here). -/
structure PromptMessage where
  role : String
  text : String
deriving DecidableEq

/-- The value the `GetPromptRequestSchema` handler resolves with. -/
structure PromptResult where
  description : String
  messages : List PromptMessage
deriving DecidableEq

/-- `request.params.arguments?.<key> || ""`: the argument's value, with a
missing (or empty, hence falsy) argument surfacing as `""`. -/
def lookupArg (args : List (String × String)) (key : String) : String :=
  match args.lookup key with
  | some v => v
  | none => ""

/-- The `GetPromptRequestSchema` handler: for each of the four known prompt
names, reads the corresponding template file and substitutes the user
argument for `$ARGUMENTS` via `String.prototype.replace`, returning a single
user-role message; an unknown name throws (`Except.error` here), which the
MCP layer surfaces as a protocol-level failure — unlike tool errors, nothing
catches it in this handler. -/
def getPromptHandler (name : String) (args : List (String × String)) :
    Except String PromptResult :=
  if name = "query-employees" then
    Except.ok ⟨"Query employees table using natural language instructions",
      [⟨"user", jsReplaceFirst queryEmployeesTemplate "$ARGUMENTS"
        (lookupArg args "instructions")⟩]⟩
  else if name = "insert-employee" then
    Except.ok ⟨"Insert a new employee with all related information",
      [⟨"user", jsReplaceFirst insertEmployeeTemplate "$ARGUMENTS"
        (lookupArg args "employee_info")⟩]⟩
  else if name = "delete-employee" then
    Except.ok ⟨"Delete an employee and all related records",
      [⟨"user", jsReplaceFirst deleteEmployeeTemplate "$ARGUMENTS"
        (lookupArg args "employee_identifier")⟩]⟩
  else if name = "manage-departments" then
    Except.ok ⟨"Manage departments (insert or delete)",
      [⟨"user", jsReplaceFirst manageDepartmentsTemplate "$ARGUMENTS"
        (lookupArg args "instructions")⟩]⟩
  else
    Except.error ("Unknown prompt: " ++ name)

/-- The value the `ReadResourceRequestSchema` handler resolves with. -/
structure ResourceResult where
  uri : String
  mimeType : String
  text : String
deriving DecidableEq

/-- The `ReadResourceRequestSchema` handler: serves the schema document for
the one recognized URI (`schemaContent` stands for the contents of the
`specs/database-schema.md` file read at request time); any other URI throws
(`Except.error`), uncaught in the handler. -/
def readResourceHandler (schemaContent : String) (uri : String) :
    Except String ResourceResult :=
  if uri = "bun-db-mcp://general-database" then
    Except.ok ⟨uri, "text/markdown", schemaContent⟩
  else
    Except.error ("Unknown resource: " ++ uri)


/-! ## Helper lemmas: validation -/

theorem validateTableName_ok (t : String) (h : isValidIdent t = true) :
    validateTableName t = Except.ok () := by
  simp [validateTableName, h]

theorem validateTableName_err (t : String) (h : isValidIdent t = false) :
    validateTableName t = Except.error "Invalid table name" := by
  simp [validateTableName, h]

theorem validateColumnName_ok (c : String) (h : isValidIdent c = true) :
    validateColumnName c = Except.ok () := by
  simp [validateColumnName, h]

theorem validateColumnName_err (c : String) (h : isValidIdent c = false) :
    validateColumnName c = Except.error "Invalid column name" := by
  simp [validateColumnName, h]

theorem validateColumns_ok (cs : List String) (h : ∀ c ∈ cs, isValidIdent c = true) :
    validateColumns cs = Except.ok () := by
  induction cs with
  | nil => rfl
  | cons c rest ih =>
    rw [validateColumns, validateColumnName_ok c (h c (List.mem_cons_self c rest))]
    exact ih fun k hk => h k (List.mem_cons_of_mem c hk)

theorem validateColumns_err (cs : List String) (h : ¬ ∀ c ∈ cs, isValidIdent c = true) :
    validateColumns cs = Except.error "Invalid column name" := by
  induction cs with
  | nil => exact absurd (by simp) h
  | cons c rest ih =>
    by_cases hc : isValidIdent c = true
    · rw [validateColumns, validateColumnName_ok c hc]
      refine ih fun hall => h ?_
      intro k hk
      rcases List.mem_cons.mp hk with rfl | hk2
      · exact hc
      · exact hall k hk2
    · rw [validateColumns, validateColumnName_err c (Bool.eq_false_iff.mpr hc)]

theorem whereParts_ok (ks : List String) (h : ∀ k ∈ ks, isValidIdent k = true) :
    whereParts ks = Except.ok (ks.map fun k => escapeIdentifier k ++ " = ?") := by
  induction ks with
  | nil => rfl
  | cons k rest ih =>
    rw [whereParts, validateColumnName_ok k (h k (List.mem_cons_self k rest)),
      ih fun x hx => h x (List.mem_cons_of_mem k hx)]
    rfl

theorem whereParts_err (ks : List String) (h : ¬ ∀ k ∈ ks, isValidIdent k = true) :
    whereParts ks = Except.error "Invalid column name" := by
  induction ks with
  | nil => exact absurd (by simp) h
  | cons k rest ih =>
    by_cases hk : isValidIdent k = true
    · rw [whereParts, validateColumnName_ok k hk]
      rw [ih fun hall => h fun x hx => ?_]
      rcases List.mem_cons.mp hx with rfl | hx2
      · exact hk
      · exact hall x hx2
    · rw [whereParts, validateColumnName_err k (Bool.eq_false_iff.mpr hk)]

theorem buildWhereClause_ok (conds : List (String × String))
    (h : ∀ k ∈ conds.map Prod.fst, isValidIdent k = true) :
    buildWhereClause conds =
      Except.ok
        (joinSep " AND " ((conds.map Prod.fst).map fun k => escapeIdentifier k ++ " = ?"),
         conds.map Prod.snd) := by
  rw [buildWhereClause, whereParts_ok _ h]

theorem buildWhereClause_err (conds : List (String × String))
    (h : ¬ ∀ k ∈ conds.map Prod.fst, isValidIdent k = true) :
    buildWhereClause conds = Except.error "Invalid column name" := by
  rw [buildWhereClause, whereParts_err _ h]

/-! ## String-append helper facts -/

theorem emptyString_data : ("" : String).data = [] := rfl

theorem spaceWhere_data : (" WHERE " : String).data = [' '] ++ "WHERE ".data := rfl

/-! ## Claim C2 -/

/-- C2: every `create`/`update`/`delete` call whose table identifier (or any
data/where column identifier) fails `^[a-zA-Z_][a-zA-Z0-9_]*$` is rejected
with the corresponding invalid-identifier error. In the embedding an
`Except.error` result is produced without the handler ever reaching the SQL
construction or the `dbQuery` step, whatever the connection state. -/
theorem claim_C2_invalid_identifier_rejected (connected : Bool) (p : ToolParams) :
    (isValidIdent p.table = false →
      handleCreate connected p = Except.error "Invalid table name" ∧
      handleUpdate connected p = Except.error "Invalid table name" ∧
      handleDelete connected p = Except.error "Invalid table name") ∧
    (isValidIdent p.table = true →
        ¬ (∀ k ∈ p.data.map Prod.fst, isValidIdent k = true) →
      handleCreate connected p = Except.error "Invalid column name" ∧
      handleUpdate connected p = Except.error "Invalid column name") ∧
    (isValidIdent p.table = true →
        ¬ (∀ k ∈ p.whereConds.map Prod.fst, isValidIdent k = true) →
      handleDelete connected p = Except.error "Invalid column name") ∧
    (isValidIdent p.table = true →
        (∀ k ∈ p.data.map Prod.fst, isValidIdent k = true) →
        ¬ (∀ k ∈ p.whereConds.map Prod.fst, isValidIdent k = true) →
      handleUpdate connected p = Except.error "Invalid column name") := by
  refine ⟨?_, ?_, ?_, ?_⟩
  · intro h
    refine ⟨?_, ?_, ?_⟩ <;>
      simp [handleCreate, handleUpdate, handleDelete, validateTableName_err p.table h]
  · intro ht hcols
    constructor <;>
      simp [handleCreate, handleUpdate, validateTableName_ok p.table ht,
        validateColumns_err _ hcols]
  · intro ht hkeys
    simp [handleDelete, validateTableName_ok p.table ht, buildWhereClause_err _ hkeys]
  · intro ht hcols hkeys
    simp [handleUpdate, validateTableName_ok p.table ht, validateColumns_ok _ hcols,
      buildWhereClause_err _ hkeys]

/-- Witness for C2, the spec's concrete scenario 3: a table name with an
injection payload is rejected as an invalid table name. -/
theorem claim_C2_witness :
    handleCreate true ⟨"", "", [], "users; DROP TABLE x", [("name", "a")], []⟩ =
      Except.error "Invalid table name" :=
  ((claim_C2_invalid_identifier_rejected true
    ⟨"", "", [], "users; DROP TABLE x", [("name", "a")], []⟩).1 (by decide)).1

/-! ## Claim C3 -/

/-- C3: the `query` tool rejects (with a message containing
`Only SELECT queries are allowed`, and without reaching `dbQuery`) exactly
when the trimmed, upper-cased SQL does not start with `SELECT`; otherwise the
original `sql` and `params` are handed to `dbQuery`. -/
theorem claim_C3_query_select_gate (connected : Bool) (p : ToolParams) :
    (jsStartsWith (jsToUpperCase (jsTrim p.sql)) "SELECT" = false →
      handleQuery connected p = Except.error "Only SELECT queries are allowed in query tool") ∧
    (jsStartsWith (jsToUpperCase (jsTrim p.sql)) "SELECT" = true →
      handleQuery connected p = (dbQuery connected p.sql p.queryParams).map ToolResult.queryRows) ∧
    "Only SELECT queries are allowed".data <:+:
      "Only SELECT queries are allowed in query tool".data := by
  refine ⟨?_, ?_, by decide⟩
  · intro h
    simp [handleQuery, h]
  · intro h
    rw [handleQuery, h]
    cases hq : dbQuery connected p.sql p.queryParams <;> simp [Except.map]

/-- Witness for C3, the spec's concrete scenario 2: a `DELETE` statement is
rejected by the `query` tool whatever the parameter list. -/
theorem claim_C3_witness :
    handleQuery true ⟨"", "DELETE FROM employees", ["x"], "", [], []⟩ =
      Except.error "Only SELECT queries are allowed in query tool" :=
  (claim_C3_query_select_gate true ⟨"", "DELETE FROM employees", ["x"], "", [], []⟩).1
    (by decide)

/-! ## Claim C9 -/

/-- C9: the `disconnect` action never fails at the connection layer and is
idempotent: with the shared handle already null it still resolves with
`status: "disconnected"` and the handle stays null. -/
theorem claim_C9_disconnect_idempotent (connected : Bool) (p : ToolParams)
    (h : p.action = "disconnect") :
    handleConnection false p = Except.ok (ToolResult.connStatus "disconnected", false) ∧
    dbDisconnect false = false ∧
    handleConnection connected p =
      Except.ok (ToolResult.connStatus "disconnected", dbDisconnect connected) := by
  refine ⟨?_, rfl, ?_⟩ <;> simp [handleConnection, h, dbDisconnect]

/-- Witness for C9: disconnecting while already disconnected. -/
theorem claim_C9_witness :
    handleConnection false ⟨"disconnect", "", [], "", [], []⟩ =
      Except.ok (ToolResult.connStatus "disconnected", false) :=
  (claim_C9_disconnect_idempotent false ⟨"disconnect", "", [], "", [], []⟩ rfl).1

/-! ## Claim C10 -/

/-- C10: with an empty `where` map (and valid identifiers) `update` and
`delete` are not rejected: `buildWhereClause` yields an empty clause and no
values, and the statement — whose text ends in `WHERE ` with no condition —
is handed to `dbQuery` as-is. -/
theorem claim_C10_empty_where_accepted (connected : Bool) (p : ToolParams)
    (hw : p.whereConds = []) (ht : isValidIdent p.table = true) :
    buildWhereClause p.whereConds = Except.ok ("", []) ∧
    (connected = true →
      handleDelete connected p =
        Except.ok (ToolResult.mutation ⟨deleteSql p.table "", []⟩) ∧
      "WHERE ".data <:+ (deleteSql p.table "").data) ∧
    (connected = true → (∀ k ∈ p.data.map Prod.fst, isValidIdent k = true) →
      handleUpdate connected p =
        Except.ok (ToolResult.mutation
          ⟨updateSql p.table (p.data.map Prod.fst) "", p.data.map Prod.snd⟩) ∧
      "WHERE ".data <:+ (updateSql p.table (p.data.map Prod.fst) "").data) := by
  have hbw : buildWhereClause p.whereConds = Except.ok ("", []) := by
    rw [hw]; rfl
  refine ⟨hbw, ?_, ?_⟩
  · intro hc
    subst hc
    refine ⟨?_, ?_⟩
    · simp [handleDelete, validateTableName_ok p.table ht, hbw, dbQuery]
    · refine ⟨"DELETE FROM ".data ++ (escapeIdentifier p.table).data ++ [' '], ?_⟩
      simp only [deleteSql, String.data_append, spaceWhere_data, emptyString_data,
        List.append_assoc, List.append_nil, List.singleton_append]
  · intro hc hcols
    subst hc
    refine ⟨?_, ?_⟩
    · simp [handleUpdate, validateTableName_ok p.table ht, validateColumns_ok _ hcols,
        hbw, dbQuery]
    · refine ⟨"UPDATE ".data ++ (escapeIdentifier p.table).data ++ " SET ".data ++
        (joinSep ", " ((p.data.map Prod.fst).map fun k => escapeIdentifier k ++ " = ?")).data ++
        [' '], ?_⟩
      simp only [updateSql, String.data_append, spaceWhere_data, emptyString_data,
        List.append_assoc, List.append_nil, List.singleton_append]

/-- Witness for C10: a `delete` with an empty `where` map issues
`DELETE FROM `table`` `WHERE ` with an empty bound-parameter list. -/
theorem claim_C10_witness :
    handleDelete true ⟨"", "", [], "employees", [], []⟩ =
      Except.ok (ToolResult.mutation ⟨deleteSql "employees" "", []⟩) :=
  (((claim_C10_empty_where_accepted true ⟨"", "", [], "employees", [], []⟩ rfl
    (by decide)).2.1) rfl).1

/-! ## Claim C8 -/

/-- C8: every data tool call that passes its own argument validation fails
with `Database not connected` when the shared handle is null (`connected =
false`), and no SQL is executed (the embedding's `dbQuery` is what raises the
error, before any statement reaches a database). -/
theorem claim_C8_not_connected (dbName : String) (p : ToolParams) :
    (jsStartsWith (jsToUpperCase (jsTrim p.sql)) "SELECT" = true →
      handleQuery false p = Except.error "Database not connected") ∧
    (isValidIdent p.table = true →
        (∀ k ∈ p.data.map Prod.fst, isValidIdent k = true) →
      handleCreate false p = Except.error "Database not connected") ∧
    (isValidIdent p.table = true →
        (∀ k ∈ p.data.map Prod.fst, isValidIdent k = true) →
        (∀ k ∈ p.whereConds.map Prod.fst, isValidIdent k = true) →
      handleUpdate false p = Except.error "Database not connected") ∧
    (isValidIdent p.table = true →
        (∀ k ∈ p.whereConds.map Prod.fst, isValidIdent k = true) →
      handleDelete false p = Except.error "Database not connected") ∧
    (p.table = "" →
      handleReadSchema false dbName p = Except.error "Database not connected") ∧
    (p.table ≠ "" → isValidIdent p.table = true →
      handleReadSchema false dbName p = Except.error "Database not connected") := by
  refine ⟨?_, ?_, ?_, ?_, ?_, ?_⟩
  · intro h
    rw [handleQuery, h]
    simp [dbQuery]
  · intro ht hcols
    simp [handleCreate, validateTableName_ok p.table ht, validateColumns_ok _ hcols, dbQuery]
  · intro ht hcols hkeys
    simp [handleUpdate, validateTableName_ok p.table ht, validateColumns_ok _ hcols,
      buildWhereClause_ok _ hkeys, dbQuery]
  · intro ht hkeys
    simp [handleDelete, validateTableName_ok p.table ht, buildWhereClause_ok _ hkeys, dbQuery]
  · intro ht
    simp [handleReadSchema, ht, dbQuery]
  · intro ht hv
    simp [handleReadSchema, ht, validateTableName_ok p.table hv, dbQuery]

/-- Witness for C8: a valid `SELECT 1` query issued while disconnected. -/
theorem claim_C8_witness :
    handleQuery false ⟨"", "SELECT 1", [], "", [], []⟩ =
      Except.error "Database not connected" :=
  (claim_C8_not_connected "mcp_test" ⟨"", "SELECT 1", [], "", [], []⟩).1 (by decide)

/-! ## Claim C4 -/

/-- C4: for every tool name outside the fixed six, the call-tool request
handler returns an error envelope flagged `isError` whose text contains
`Unknown tool: <name>`, leaves the connection state unchanged, and (being a
total function into `ToolResponse`) propagates no exception. -/
theorem claim_C4_unknown_tool (connected : Bool) (dbName toolName : String) (p : ToolParams)
    (h : toolName ∉ ["connection", "query", "create", "update", "delete", "readSchema"]) :
    callToolRequestHandler connected dbName toolName p =
      (⟨"Error: " ++ ("Unknown tool: " ++ toolName), true⟩, connected) ∧
    ("Unknown tool: " ++ toolName).data <:+:
      ("Error: " ++ ("Unknown tool: " ++ toolName)).data := by
  obtain ⟨h1, h2, h3, h4, h5, h6⟩ :
      ¬toolName = "connection" ∧ ¬toolName = "query" ∧ ¬toolName = "create" ∧
      ¬toolName = "update" ∧ ¬toolName = "delete" ∧ ¬toolName = "readSchema" := by
    simpa using h
  refine ⟨?_, ?_⟩
  · simp [callToolRequestHandler, handleToolCall, h1, h2, h3, h4, h5, h6]
  · rw [String.data_append]
    exact (List.suffix_append _ _).isInfix

/-- Witness for C4: an unknown tool name produces the soft error envelope. -/
theorem claim_C4_witness :
    callToolRequestHandler true "mcp_test" "dropDatabase" ⟨"", "", [], "", [], []⟩ =
      (⟨"Error: " ++ ("Unknown tool: " ++ "dropDatabase"), true⟩, true) :=
  (claim_C4_unknown_tool true "mcp_test" "dropDatabase" ⟨"", "", [], "", [], []⟩
    (by decide)).1

/-! ## Character-set lemmas for the generated SQL (claim C1) -/

theorem sqlSafe_append {a b : String} (ha : sqlSafe a) (hb : sqlSafe b) :
    sqlSafe (a ++ b) := by
  intro c hc
  rw [String.data_append] at hc
  rcases List.mem_append.mp hc with h | h
  · exact ha c h
  · exact hb c h

theorem identTailChar_not_meta (c : Char) (h : isIdentTailChar c = true) :
    sqlMetaChar c = false := by
  rcases Bool.eq_false_or_eq_true (sqlMetaChar c) with htr | hf
  · exfalso
    have hd : (c = squoteChar ∨ c = ';') ∨ c = '-' := by
      simpa [sqlMetaChar] using htr
    rcases hd with (rfl | rfl) | rfl <;> revert h <;> decide
  · exact hf

theorem identStartChar_tail (c : Char) (h : isIdentStartChar c = true) :
    isIdentTailChar c = true := by
  have hd : c.isAlpha = true ∨ c = '_' := by simpa [isIdentStartChar] using h
  rcases hd with ha | rfl
  · simp [isIdentTailChar, Char.isAlphanum, ha]
  · decide

theorem validIdent_chars (s : String) (h : isValidIdent s = true) :
    ∀ c ∈ s.data, isIdentTailChar c = true := by
  intro c hc
  rw [isValidIdent] at h
  rcases hd : s.data with _ | ⟨x, xs⟩
  · rw [hd] at hc; cases hc
  · rw [hd] at h hc
    simp only [Bool.and_eq_true, List.all_eq_true] at h
    rcases List.mem_cons.mp hc with rfl | hc2
    · exact identStartChar_tail c h.1
    · exact h.2 c hc2

theorem escapeIdentifier_chars (s : String) :
    ∀ c ∈ (escapeIdentifier s).data, c = bquoteChar ∨ c ∈ s.data := by
  intro c hc
  rw [escapeIdentifier] at hc
  rcases List.mem_cons.mp hc with rfl | hc2
  · exact Or.inl rfl
  rcases List.mem_append.mp hc2 with h | h
  · rcases List.mem_flatten.mp h with ⟨l, hl, hcl⟩
    rcases List.mem_map.mp hl with ⟨d, hd, rfl⟩
    rw [escapeIdentChar] at hcl
    by_cases hdb : d = bquoteChar
    · rw [if_pos hdb] at hcl
      rcases List.mem_cons.mp hcl with rfl | hcl2
      · exact Or.inl rfl
      · rcases List.mem_cons.mp hcl2 with rfl | hcl3
        · exact Or.inl rfl
        · cases hcl3
    · rw [if_neg hdb] at hcl
      rcases List.mem_cons.mp hcl with rfl | hcl2
      · exact Or.inr hd
      · cases hcl2
  · rcases List.mem_cons.mp h with rfl | h2
    · exact Or.inl rfl
    · cases h2

theorem sqlSafe_escape (s : String) (h : isValidIdent s = true) :
    sqlSafe (escapeIdentifier s) := by
  intro c hc
  rcases escapeIdentifier_chars s c hc with rfl | hmem
  · decide
  · exact identTailChar_not_meta c (validIdent_chars s h c hmem)

theorem sqlSafe_joinSep (sep : String) (L : List String)
    (hsep : sqlSafe sep) (hL : ∀ s ∈ L, sqlSafe s) : sqlSafe (joinSep sep L) := by
  induction L with
  | nil => intro c hc; cases hc
  | cons s rest ih =>
    rcases rest with _ | ⟨t, ts⟩
    · exact hL s (List.mem_cons_self s [])
    · have hEq : joinSep sep (s :: t :: ts) = s ++ sep ++ joinSep sep (t :: ts) := rfl
      rw [hEq]
      exact sqlSafe_append
        (sqlSafe_append (hL s (List.mem_cons_self _ _)) hsep)
        (ih fun x hx => hL x (List.mem_cons_of_mem s hx))

theorem sqlSafe_of_all (s : String)
    (h : s.data.all (fun c => !(sqlMetaChar c)) = true) : sqlSafe s := by
  intro c hc
  simpa using List.all_eq_true.mp h c hc

theorem sqlSafe_lit_insert : sqlSafe "INSERT INTO " := sqlSafe_of_all _ (by decide)
theorem sqlSafe_lit_update : sqlSafe "UPDATE " := sqlSafe_of_all _ (by decide)
theorem sqlSafe_lit_delete : sqlSafe "DELETE FROM " := sqlSafe_of_all _ (by decide)
theorem sqlSafe_lit_openParen : sqlSafe " (" := sqlSafe_of_all _ (by decide)
theorem sqlSafe_lit_values : sqlSafe ") VALUES (" := sqlSafe_of_all _ (by decide)
theorem sqlSafe_lit_closeParen : sqlSafe ")" := sqlSafe_of_all _ (by decide)
theorem sqlSafe_lit_comma : sqlSafe ", " := sqlSafe_of_all _ (by decide)
theorem sqlSafe_lit_qmark : sqlSafe "?" := sqlSafe_of_all _ (by decide)
theorem sqlSafe_lit_set : sqlSafe " SET " := sqlSafe_of_all _ (by decide)
theorem sqlSafe_lit_where : sqlSafe " WHERE " := sqlSafe_of_all _ (by decide)
theorem sqlSafe_lit_eqq : sqlSafe " = ?" := sqlSafe_of_all _ (by decide)
theorem sqlSafe_lit_and : sqlSafe " AND " := sqlSafe_of_all _ (by decide)

theorem sqlSafe_createSql (table : String) (columns : List String)
    (ht : isValidIdent table = true) (hc : ∀ k ∈ columns, isValidIdent k = true) :
    sqlSafe (createSql table columns) := by
  rw [createSql]
  refine sqlSafe_append (sqlSafe_append (sqlSafe_append (sqlSafe_append
    (sqlSafe_append (sqlSafe_append ?_ ?_) ?_) ?_) ?_) ?_) ?_
  · exact sqlSafe_lit_insert
  · exact sqlSafe_escape table ht
  · exact sqlSafe_lit_openParen
  · refine sqlSafe_joinSep _ _ sqlSafe_lit_comma ?_
    intro s hs
    rcases List.mem_map.mp hs with ⟨k, hk, rfl⟩
    exact sqlSafe_escape k (hc k hk)
  · exact sqlSafe_lit_values
  · refine sqlSafe_joinSep _ _ sqlSafe_lit_comma ?_
    intro s hs
    rcases List.mem_map.mp hs with ⟨k, _, rfl⟩
    exact sqlSafe_lit_qmark
  · exact sqlSafe_lit_closeParen

theorem sqlSafe_whereClause (ks : List String)
    (hk : ∀ k ∈ ks, isValidIdent k = true) :
    sqlSafe (joinSep " AND " (ks.map fun k => escapeIdentifier k ++ " = ?")) := by
  refine sqlSafe_joinSep _ _ sqlSafe_lit_and ?_
  intro s hs
  rcases List.mem_map.mp hs with ⟨k, hkk, rfl⟩
  exact sqlSafe_append (sqlSafe_escape k (hk k hkk)) sqlSafe_lit_eqq

theorem sqlSafe_updateSql (table : String) (dataKeys : List String) (wc : String)
    (ht : isValidIdent table = true) (hd : ∀ k ∈ dataKeys, isValidIdent k = true)
    (hw : sqlSafe wc) : sqlSafe (updateSql table dataKeys wc) := by
  rw [updateSql]
  refine sqlSafe_append (sqlSafe_append (sqlSafe_append (sqlSafe_append
    (sqlSafe_append ?_ ?_) ?_) ?_) ?_) ?_
  · exact sqlSafe_lit_update
  · exact sqlSafe_escape table ht
  · exact sqlSafe_lit_set
  · refine sqlSafe_joinSep _ _ sqlSafe_lit_comma ?_
    intro s hs
    rcases List.mem_map.mp hs with ⟨k, hkk, rfl⟩
    exact sqlSafe_append (sqlSafe_escape k (hd k hkk)) sqlSafe_lit_eqq
  · exact sqlSafe_lit_where
  · exact hw

theorem sqlSafe_deleteSql (table : String) (wc : String)
    (ht : isValidIdent table = true) (hw : sqlSafe wc) :
    sqlSafe (deleteSql table wc) := by
  rw [deleteSql]
  exact sqlSafe_append (sqlSafe_append (sqlSafe_append sqlSafe_lit_delete
    (sqlSafe_escape table ht)) sqlSafe_lit_where) hw

/-- A string containing an SQL metacharacter is never a substring of a
metacharacter-free string. -/
theorem not_infix_of_meta {v sql : String} (hsafe : sqlSafe sql)
    (hmeta : ∃ c ∈ v.data, sqlMetaChar c = true) :
    ¬ (v.data <:+: sql.data) := by
  intro hinf
  rcases hmeta with ⟨c, hcv, hcm⟩
  have : c ∈ sql.data := hinf.subset hcv
  rw [hsafe c this] at hcm
  cases hcm

/-! ## Success inversion for the mutating handlers -/

theorem handleCreate_ok_inv {connected : Bool} {p : ToolParams} {r : ToolResult}
    (h : handleCreate connected p = Except.ok r) :
    isValidIdent p.table = true ∧ (∀ k ∈ p.data.map Prod.fst, isValidIdent k = true) ∧
    connected = true ∧
    r = ToolResult.mutation
      ⟨createSql p.table (p.data.map Prod.fst), p.data.map Prod.snd⟩ := by
  by_cases ht : isValidIdent p.table = true
  · by_cases hcols : ∀ k ∈ p.data.map Prod.fst, isValidIdent k = true
    · rcases hc : connected with _ | _
      · rw [hc] at h
        simp [handleCreate, validateTableName_ok _ ht, validateColumns_ok _ hcols,
          dbQuery] at h
      · rw [hc] at h
        simp only [handleCreate, validateTableName_ok _ ht, validateColumns_ok _ hcols,
          dbQuery, if_pos] at h
        exact ⟨ht, hcols, rfl, by simpa using h.symm⟩
    · simp [handleCreate, validateTableName_ok _ ht, validateColumns_err _ hcols] at h
  · simp [handleCreate, validateTableName_err _ (by simpa using ht)] at h

theorem handleUpdate_ok_inv {connected : Bool} {p : ToolParams} {r : ToolResult}
    (h : handleUpdate connected p = Except.ok r) :
    isValidIdent p.table = true ∧ (∀ k ∈ p.data.map Prod.fst, isValidIdent k = true) ∧
    (∀ k ∈ p.whereConds.map Prod.fst, isValidIdent k = true) ∧ connected = true ∧
    r = ToolResult.mutation
      ⟨updateSql p.table (p.data.map Prod.fst)
        (joinSep " AND "
          ((p.whereConds.map Prod.fst).map fun k => escapeIdentifier k ++ " = ?")),
       p.data.map Prod.snd ++ p.whereConds.map Prod.snd⟩ := by
  by_cases ht : isValidIdent p.table = true
  · by_cases hcols : ∀ k ∈ p.data.map Prod.fst, isValidIdent k = true
    · by_cases hkeys : ∀ k ∈ p.whereConds.map Prod.fst, isValidIdent k = true
      · rcases hc : connected with _ | _
        · rw [hc] at h
          simp [handleUpdate, validateTableName_ok _ ht, validateColumns_ok _ hcols,
            buildWhereClause_ok _ hkeys, dbQuery] at h
        · rw [hc] at h
          simp only [handleUpdate, validateTableName_ok _ ht, validateColumns_ok _ hcols,
            buildWhereClause_ok _ hkeys, dbQuery, if_pos] at h
          exact ⟨ht, hcols, hkeys, rfl, by simpa using h.symm⟩
      · simp [handleUpdate, validateTableName_ok _ ht, validateColumns_ok _ hcols,
          buildWhereClause_err _ hkeys] at h
    · simp [handleUpdate, validateTableName_ok _ ht, validateColumns_err _ hcols] at h
  · simp [handleUpdate, validateTableName_err _ (by simpa using ht)] at h

theorem handleDelete_ok_inv {connected : Bool} {p : ToolParams} {r : ToolResult}
    (h : handleDelete connected p = Except.ok r) :
    isValidIdent p.table = true ∧
    (∀ k ∈ p.whereConds.map Prod.fst, isValidIdent k = true) ∧ connected = true ∧
    r = ToolResult.mutation
      ⟨deleteSql p.table
        (joinSep " AND "
          ((p.whereConds.map Prod.fst).map fun k => escapeIdentifier k ++ " = ?")),
       p.whereConds.map Prod.snd⟩ := by
  by_cases ht : isValidIdent p.table = true
  · by_cases hkeys : ∀ k ∈ p.whereConds.map Prod.fst, isValidIdent k = true
    · rcases hc : connected with _ | _
      · rw [hc] at h
        simp [handleDelete, validateTableName_ok _ ht, buildWhereClause_ok _ hkeys,
          dbQuery] at h
      · rw [hc] at h
        simp only [handleDelete, validateTableName_ok _ ht, buildWhereClause_ok _ hkeys,
          dbQuery, if_pos] at h
        exact ⟨ht, hkeys, rfl, by simpa using h.symm⟩
    · simp [handleDelete, validateTableName_ok _ ht, buildWhereClause_err _ hkeys] at h
  · simp [handleDelete, validateTableName_err _ (by simpa using ht)] at h

/-! ## Claim C1 -/

/-- C1: whenever `create`, `update` or `delete` succeeds in constructing SQL,
the `data`/`where` values appear verbatim — and in order — as the bound
parameter list, and the generated SQL text (escaped identifiers, fixed
keywords and `?` placeholders only) contains no literal occurrence of any
value containing an SQL metacharacter (quote, `;`, `-`). -/
theorem claim_C1_values_only_bound_parameters (connected : Bool) (p : ToolParams) :
    (∀ call, handleCreate connected p = Except.ok (ToolResult.mutation call) →
      call.params = p.data.map Prod.snd ∧
      ∀ v ∈ call.params, (∃ c ∈ v.data, sqlMetaChar c = true) →
        ¬ (v.data <:+: call.sql.data)) ∧
    (∀ call, handleUpdate connected p = Except.ok (ToolResult.mutation call) →
      call.params = p.data.map Prod.snd ++ p.whereConds.map Prod.snd ∧
      ∀ v ∈ call.params, (∃ c ∈ v.data, sqlMetaChar c = true) →
        ¬ (v.data <:+: call.sql.data)) ∧
    (∀ call, handleDelete connected p = Except.ok (ToolResult.mutation call) →
      call.params = p.whereConds.map Prod.snd ∧
      ∀ v ∈ call.params, (∃ c ∈ v.data, sqlMetaChar c = true) →
        ¬ (v.data <:+: call.sql.data)) := by
  refine ⟨?_, ?_, ?_⟩
  · intro call h
    obtain ⟨ht, hcols, -, hr⟩ := handleCreate_ok_inv h
    obtain rfl : call = ⟨createSql p.table (p.data.map Prod.fst), p.data.map Prod.snd⟩ := by
      simpa using hr
    exact ⟨rfl, fun v _ hmeta =>
      not_infix_of_meta (sqlSafe_createSql _ _ ht hcols) hmeta⟩
  · intro call h
    obtain ⟨ht, hcols, hkeys, -, hr⟩ := handleUpdate_ok_inv h
    obtain rfl : call = ⟨updateSql p.table (p.data.map Prod.fst)
        (joinSep " AND "
          ((p.whereConds.map Prod.fst).map fun k => escapeIdentifier k ++ " = ?")),
        p.data.map Prod.snd ++ p.whereConds.map Prod.snd⟩ := by
      simpa using hr
    exact ⟨rfl, fun v _ hmeta =>
      not_infix_of_meta
        (sqlSafe_updateSql _ _ _ ht hcols (sqlSafe_whereClause _ hkeys)) hmeta⟩
  · intro call h
    obtain ⟨ht, hkeys, -, hr⟩ := handleDelete_ok_inv h
    obtain rfl : call = ⟨deleteSql p.table
        (joinSep " AND "
          ((p.whereConds.map Prod.fst).map fun k => escapeIdentifier k ++ " = ?")),
        p.whereConds.map Prod.snd⟩ := by
      simpa using hr
    exact ⟨rfl, fun v _ hmeta =>
      not_infix_of_meta
        (sqlSafe_deleteSql _ _ ht (sqlSafe_whereClause _ hkeys)) hmeta⟩

/-- Witness for C1: inserting the spec's injection payload `'; DROP TABLE--`
binds it as the single parameter, and the payload does not occur in the
generated SQL text. -/
theorem claim_C1_witness :
    ¬ (("\x27; DROP TABLE--" : String).data <:+:
        ("INSERT INTO \x60users\x60 (\x60name\x60) VALUES (?)" : String).data) := by
  have happ := (claim_C1_values_only_bound_parameters true
    ⟨"", "", [], "users", [("name", "\x27; DROP TABLE--")], []⟩).1
    ⟨"INSERT INTO \x60users\x60 (\x60name\x60) VALUES (?)", ["\x27; DROP TABLE--"]⟩ rfl
  exact happ.2 "\x27; DROP TABLE--" (by decide) (by decide)

/-! ## Claim C5 -/

/-- C5: requests whose session id is not live — never allocated or already
terminated — are rejected with no state change: POST with an unknown id (or
with no id and no initialize body) yields 400 with JSON-RPC code -32000; GET
and DELETE with an unknown id yield 400; and after a DELETE terminates a
session, its id is no longer live, so the same id is rejected rather than
silently accepted. -/
theorem claim_C5_unknown_session_rejected (store : SessionStore) (sid : String) :
    (sid ≠ "" → sid ∉ store → ∀ isInit newId,
      mcpPostHandler store (some sid) isInit newId =
        (PostOutcome.rejected ⟨400, some (-32000)⟩, store)) ∧
    (∀ newId, mcpPostHandler store none false newId =
      (PostOutcome.rejected ⟨400, some (-32000)⟩, store)) ∧
    (sid ≠ "" → sid ∉ store →
      mcpGetHandler store (some sid) = (some ⟨400, none⟩, store)) ∧
    (sid ≠ "" → sid ∉ store →
      mcpDeleteHandler store (some sid) = (some ⟨400, none⟩, store)) ∧
    (sid ≠ "" → sid ∈ store →
      (mcpDeleteHandler store (some sid)).1 = none ∧
      (mcpDeleteHandler store (some sid)).2 = store.erase sid ∧
      sid ∉ store.erase sid ∧
      ∀ isInit newId,
        mcpPostHandler (store.erase sid) (some sid) isInit newId =
          (PostOutcome.rejected ⟨400, some (-32000)⟩, store.erase sid)) := by
  refine ⟨?_, ?_, ?_, ?_, ?_⟩
  · intro hne hnot isInit newId
    simp [mcpPostHandler, headerTruthy, headerValue, hne, hnot]
  · intro newId
    simp [mcpPostHandler, headerTruthy, headerValue]
  · intro hne hnot
    simp [mcpGetHandler, headerTruthy, headerValue, hne, hnot]
  · intro hne hnot
    simp [mcpDeleteHandler, headerTruthy, headerValue, hne, hnot]
  · intro hne hmem
    have herase : sid ∉ store.erase sid := Finset.not_mem_erase sid store
    refine ⟨?_, ?_, herase, ?_⟩
    · simp [mcpDeleteHandler, headerTruthy, headerValue, hne, hmem]
    · simp [mcpDeleteHandler, headerTruthy, headerValue, hne, hmem]
    · intro isInit newId
      simp [mcpPostHandler, headerTruthy, headerValue, hne, herase]

/-- Witness for C5: with one live session `aaa`, an unknown id `bbb` is
rejected, and after deleting `aaa` a replay of `aaa` is rejected too. -/
theorem claim_C5_witness :
    mcpPostHandler ({"aaa"} : Finset String) (some "bbb") true "ccc" =
      (PostOutcome.rejected ⟨400, some (-32000)⟩, ({"aaa"} : Finset String)) ∧
    mcpPostHandler (({"aaa"} : Finset String).erase "aaa") (some "aaa") false "ccc" =
      (PostOutcome.rejected ⟨400, some (-32000)⟩,
        (({"aaa"} : Finset String).erase "aaa")) := by
  constructor
  · exact (claim_C5_unknown_session_rejected ({"aaa"} : Finset String) "bbb").1
      (by decide) (by decide) true "ccc"
  · exact ((claim_C5_unknown_session_rejected ({"aaa"} : Finset String) "aaa").2.2.2.2
      (by decide) (by decide)).2.2.2 false "ccc"

/-! ## Lemmas about `jsReplaceFirst` and the templates -/

theorem dollarFree_of_all (l : List Char) (h : l.all (fun c => !(c = '$')) = true) :
    ∀ c ∈ l, ¬ c = '$' := by
  intro c hc
  simpa using List.all_eq_true.mp h c hc

theorem dollarFree_append {l₁ l₂ : List Char}
    (h₁ : ∀ c ∈ l₁, ¬ c = '$') (h₂ : ∀ c ∈ l₂, ¬ c = '$') :
    ∀ c ∈ l₁ ++ l₂, ¬ c = '$' := fun c hc =>
  (List.mem_append.mp hc).elim (h₁ c) (h₂ c)

theorem jsSubstitution_no_dollar (m b a l : List Char)
    (hl : ∀ c ∈ l, ¬ c = '$') : jsSubstitution m b a l = l := by
  induction l with
  | nil => rfl
  | cons c rest ih =>
    have hc : ¬ c = '$' := hl c (List.mem_cons_self c rest)
    have hstep : jsSubstitution m b a (c :: rest) = c :: jsSubstitution m b a rest := by
      rw [jsSubstitution.eq_def]
      simp [hc]
    rw [hstep, ih fun x hx => hl x (List.mem_cons_of_mem c hx)]

theorem jsSubstitution_dollarAmp (m b a : List Char) :
    jsSubstitution m b a ['$', '&'] = m := by
  rw [jsSubstitution.eq_def]
  simp [jsSubstitution]

theorem findSubIndex_append_pat (b a pr : List Char) (hb : ∀ c ∈ b, ¬ c = '$') :
    findSubIndex (b ++ ('$' :: pr) ++ a) ('$' :: pr) = some b.length := by
  induction b with
  | nil =>
    have hpre : ('$' :: pr).isPrefixOf (('$' :: pr) ++ a) = true :=
      List.isPrefixOf_iff_prefix.mpr (List.prefix_append _ _)
    simp [findSubIndex, hpre]
  | cons c b2 ih =>
    have hc : ¬ c = '$' := hb c (List.mem_cons_self c b2)
    have hpre : ('$' :: pr).isPrefixOf ((c :: b2) ++ ('$' :: pr) ++ a) = false := by
      apply Bool.eq_false_iff.mpr
      intro htrue
      obtain ⟨r, hr⟩ := List.isPrefixOf_iff_prefix.mp htrue
      have hcc : '$' = c := by
        have h2 := congrArg List.head? hr
        simpa using h2
      exact hc hcc.symm
    rw [findSubIndex.eq_def]
    simp only [hpre, Bool.false_eq_true, if_false, List.cons_append]
    rw [ih fun x hx => hb x (List.mem_cons_of_mem c hx)]
    simp [Option.map]
    intro heq
    exact (hc heq.symm).elim

theorem jsReplaceFirst_eq (T repl : String) (b a : List Char)
    (hsplit : T.data = b ++ "$ARGUMENTS".data ++ a)
    (hb : ∀ c ∈ b, ¬ c = '$') :
    (jsReplaceFirst T "$ARGUMENTS" repl).data =
      b ++ jsSubstitution "$ARGUMENTS".data b a repl.data ++ a := by
  have hfind : findSubIndex T.data ("$ARGUMENTS" : String).data = some b.length := by
    rw [hsplit]
    exact findSubIndex_append_pat b a "ARGUMENTS".data hb
  have htake : T.data.take b.length = b := by
    rw [hsplit, List.append_assoc]
    exact List.take_left b _
  have hdrop : T.data.drop (b.length + ("$ARGUMENTS" : String).data.length) = a := by
    rw [hsplit, ← List.length_append b ("$ARGUMENTS" : String).data]
    exact List.drop_left _ _
  rw [jsReplaceFirst, hfind]
  simp only [htake, hdrop]

theorem specVerbatimReplaceFirst_eq (T repl : String) (b a : List Char)
    (hsplit : T.data = b ++ "$ARGUMENTS".data ++ a)
    (hb : ∀ c ∈ b, ¬ c = '$') :
    (specVerbatimReplaceFirst T "$ARGUMENTS" repl).data = b ++ repl.data ++ a := by
  have hfind : findSubIndex T.data ("$ARGUMENTS" : String).data = some b.length := by
    rw [hsplit]
    exact findSubIndex_append_pat b a "ARGUMENTS".data hb
  have htake : T.data.take b.length = b := by
    rw [hsplit, List.append_assoc]
    exact List.take_left b _
  have hdrop : T.data.drop (b.length + ("$ARGUMENTS" : String).data.length) = a := by
    rw [hsplit, ← List.length_append b ("$ARGUMENTS" : String).data]
    exact List.drop_left _ _
  rw [specVerbatimReplaceFirst, hfind]
  simp only [htake, hdrop]

theorem infix_append_split {p u t : List Char} (h : p <:+: u ++ t) (hne : p ≠ []) :
    (∃ c ∈ u, p.head? = some c) ∨ p <:+: t := by
  induction u with
  | nil => exact Or.inr (by simpa using h)
  | cons c u2 ih =>
    rw [List.cons_append] at h
    rcases List.infix_cons_iff.mp h with hpre | hinf
    · rcases hp : p with _ | ⟨d, p2⟩
      · exact absurd hp hne
      · rw [hp] at hpre
        obtain ⟨r, hr⟩ := hpre
        have hd : d = c := by
          have h2 := congrArg List.head? hr
          simpa using h2
        exact Or.inl ⟨c, List.mem_cons_self c u2, by rw [hd]; rfl⟩
    · rcases ih hinf with ⟨c2, hc2, hh⟩ | hr
      · exact Or.inl ⟨c2, List.mem_cons_of_mem c hc2, hh⟩
      · exact Or.inr hr

theorem no_pat_in_result (v : String) (b a₁ a₂ : List Char)
    (hb : ∀ c ∈ b, ¬ c = '$') (hv : ∀ c ∈ v.data, ¬ c = '$')
    (ha₁ : ∀ c ∈ a₁, ¬ c = '$')
    (ha₂ : ¬ ("$ARGUMENTS".data <:+: a₂)) :
    ¬ ("$ARGUMENTS".data <:+: b ++ v.data ++ (a₁ ++ a₂)) := by
  intro h
  have hassoc : b ++ v.data ++ (a₁ ++ a₂) = (b ++ v.data ++ a₁) ++ a₂ := by
    simp [List.append_assoc]
  rw [hassoc] at h
  rcases infix_append_split h (by decide) with ⟨c, hc, hh⟩ | hinf
  · have hcd : '$' = c := by simpa using hh
    subst hcd
    rcases List.mem_append.mp hc with h1 | h2
    · rcases List.mem_append.mp h1 with hb1 | hv1
      · exact hb _ hb1 rfl
      · exact hv _ hv1 rfl
    · exact ha₁ _ h2 rfl
  · exact ha₂ hinf

/-- Core substitution property instantiated per template: for a dollar-free
argument the replacement is verbatim and leaves no placeholder behind. -/
theorem getPrompt_template_prop (T v : String) (b a₁ a₂ : List Char)
    (hsplit : T.data = b ++ "$ARGUMENTS".data ++ (a₁ ++ a₂))
    (hb : ∀ c ∈ b, ¬ c = '$') (ha₁ : ∀ c ∈ a₁, ¬ c = '$')
    (ha₂ : ¬ ("$ARGUMENTS".data <:+: a₂))
    (hv : ∀ c ∈ v.data, ¬ c = '$') :
    (jsReplaceFirst T "$ARGUMENTS" v).data = b ++ v.data ++ (a₁ ++ a₂) ∧
    ¬ ("$ARGUMENTS".data <:+: b ++ v.data ++ (a₁ ++ a₂)) := by
  constructor
  · rw [jsReplaceFirst_eq T v b (a₁ ++ a₂) hsplit hb,
      jsSubstitution_no_dollar _ _ _ _ hv]
  · exact no_pat_in_result v b a₁ a₂ hb hv ha₁ ha₂

set_option maxRecDepth 200000

theorem qePre_free : ∀ c ∈ queryEmployeesTemplatePre.data, ¬ c = '$' :=
  dollarFree_of_all _ (by decide)

theorem qePost_free : ∀ c ∈ queryEmployeesTemplatePost.data, ¬ c = '$' :=
  dollarFree_of_all _ (by decide)

theorem insPre_free : ∀ c ∈ insertEmployeeTemplatePre.data, ¬ c = '$' :=
  dollarFree_of_all _ (by decide)

theorem insPost1_free : ∀ c ∈ insertEmployeeTemplatePost1.data, ¬ c = '$' :=
  dollarFree_of_all _ (by decide)

theorem insPost2_free : ∀ c ∈ insertEmployeeTemplatePost2.data, ¬ c = '$' :=
  dollarFree_of_all _ (by decide)

theorem not_infix_of_findSubIndex_none (hay pat : List Char)
    (h : findSubIndex hay pat = none) : ¬ (pat <:+: hay) := by
  induction hay with
  | nil =>
    intro hinf
    have hp : pat = [] := List.sublist_nil.mp hinf.sublist
    rw [hp] at h
    simp [findSubIndex] at h
  | cons c t ih =>
    intro hinf
    rw [findSubIndex.eq_def] at h
    by_cases hpre : pat.isPrefixOf (c :: t) = true
    · simp [hpre] at h
    · simp only [hpre, Bool.false_eq_true, if_false] at h
      rcases List.infix_cons_iff.mp hinf with hp | hi
      · exact hpre (List.isPrefixOf_iff_prefix.mpr hp)
      · rcases hfs : findSubIndex t pat with _ | n
        · exact ih hfs hi
        · rw [hfs] at h
          simp at h

theorem insPost3_noPat : ¬ ("$ARGUMENTS".data <:+: insertEmployeeTemplatePost3.data) :=
  not_infix_of_findSubIndex_none _ _ (by decide)

theorem delPre_free : ∀ c ∈ deleteEmployeeTemplatePre.data, ¬ c = '$' :=
  dollarFree_of_all _ (by decide)

theorem delPost1_free : ∀ c ∈ deleteEmployeeTemplatePost1.data, ¬ c = '$' :=
  dollarFree_of_all _ (by decide)

theorem delPost2_free : ∀ c ∈ deleteEmployeeTemplatePost2.data, ¬ c = '$' :=
  dollarFree_of_all _ (by decide)

theorem mgPre_free : ∀ c ∈ manageDepartmentsTemplatePre.data, ¬ c = '$' :=
  dollarFree_of_all _ (by decide)

theorem mgPost1_free : ∀ c ∈ manageDepartmentsTemplatePost1.data, ¬ c = '$' :=
  dollarFree_of_all _ (by decide)

theorem mgPost2_free : ∀ c ∈ manageDepartmentsTemplatePost2.data, ¬ c = '$' :=
  dollarFree_of_all _ (by decide)

theorem qe_split : queryEmployeesTemplate.data =
    queryEmployeesTemplatePre.data ++ "$ARGUMENTS".data ++
      (queryEmployeesTemplatePost.data ++ []) := by
  simp [queryEmployeesTemplate, String.data_append]

theorem ins_split : insertEmployeeTemplate.data =
    insertEmployeeTemplatePre.data ++ "$ARGUMENTS".data ++
      ((insertEmployeeTemplatePost1.data ++ insertEmployeeTemplatePost2.data) ++
        insertEmployeeTemplatePost3.data) := by
  simp [insertEmployeeTemplate, String.data_append]

theorem del_split : deleteEmployeeTemplate.data =
    deleteEmployeeTemplatePre.data ++ "$ARGUMENTS".data ++
      ((deleteEmployeeTemplatePost1.data ++ deleteEmployeeTemplatePost2.data) ++ []) := by
  simp [deleteEmployeeTemplate, String.data_append]

theorem mg_split : manageDepartmentsTemplate.data =
    manageDepartmentsTemplatePre.data ++ "$ARGUMENTS".data ++
      ((manageDepartmentsTemplatePost1.data ++ manageDepartmentsTemplatePost2.data) ++ []) := by
  simp [manageDepartmentsTemplate, String.data_append]

/-! ## Claim C6 -/

/-- C6 (amended): for every known prompt name and argument map, `getPrompt`
returns exactly one user-role message whose text is the template with the
single `$ARGUMENTS` placeholder replaced by the supplied argument (a missing
argument substituting as the empty string); for argument values free of the
dollar character the substitution is verbatim and no literal placeholder
token remains. (For values using JavaScript replacement patterns — `$$`,
`$&`, `` $` ``, `$'` — `String.prototype.replace` transforms them; see the
counterexample.) -/
theorem claim_C6_prompt_substitution (args : List (String × String))
    (name key T : String)
    (hname : (name, key, T) ∈
      [("query-employees", "instructions", queryEmployeesTemplate),
       ("insert-employee", "employee_info", insertEmployeeTemplate),
       ("delete-employee", "employee_identifier", deleteEmployeeTemplate),
       ("manage-departments", "instructions", manageDepartmentsTemplate)])
    (hv : ∀ c ∈ (lookupArg args key).data, ¬ c = '$') :
    (args.lookup key = none → lookupArg args key = "") ∧
    ∃ d b a,
      T.data = b ++ "$ARGUMENTS".data ++ a ∧
      getPromptHandler name args =
        Except.ok ⟨d, [⟨"user", String.mk (b ++ (lookupArg args key).data ++ a)⟩]⟩ ∧
      ¬ ("$ARGUMENTS".data <:+:
          (String.mk (b ++ (lookupArg args key).data ++ a)).data) := by
  refine ⟨fun hmiss => by simp [lookupArg, hmiss], ?_⟩
  simp only [List.mem_cons, List.not_mem_nil, or_false] at hname
  rcases hname with h | h | h | h <;>
    (simp only [Prod.mk.injEq] at h; obtain ⟨rfl, rfl, rfl⟩ := h)
  · obtain ⟨h1, h2⟩ := getPrompt_template_prop queryEmployeesTemplate
      (lookupArg args "instructions") queryEmployeesTemplatePre.data
      queryEmployeesTemplatePost.data [] qe_split qePre_free qePost_free (by decide) hv
    refine ⟨"Query employees table using natural language instructions",
      queryEmployeesTemplatePre.data, queryEmployeesTemplatePost.data ++ [],
      qe_split, ?_, h2⟩
    have hh : getPromptHandler "query-employees" args =
        Except.ok ⟨"Query employees table using natural language instructions",
          [⟨"user", jsReplaceFirst queryEmployeesTemplate "$ARGUMENTS"
            (lookupArg args "instructions")⟩]⟩ := rfl
    rw [hh, String.ext h1]
  · obtain ⟨h1, h2⟩ := getPrompt_template_prop insertEmployeeTemplate
      (lookupArg args "employee_info") insertEmployeeTemplatePre.data
      (insertEmployeeTemplatePost1.data ++ insertEmployeeTemplatePost2.data)
      insertEmployeeTemplatePost3.data ins_split insPre_free
      (dollarFree_append insPost1_free insPost2_free) insPost3_noPat hv
    refine ⟨"Insert a new employee with all related information",
      insertEmployeeTemplatePre.data,
      (insertEmployeeTemplatePost1.data ++ insertEmployeeTemplatePost2.data) ++
        insertEmployeeTemplatePost3.data,
      ins_split, ?_, h2⟩
    have hh : getPromptHandler "insert-employee" args =
        Except.ok ⟨"Insert a new employee with all related information",
          [⟨"user", jsReplaceFirst insertEmployeeTemplate "$ARGUMENTS"
            (lookupArg args "employee_info")⟩]⟩ := rfl
    rw [hh, String.ext h1]
  · obtain ⟨h1, h2⟩ := getPrompt_template_prop deleteEmployeeTemplate
      (lookupArg args "employee_identifier") deleteEmployeeTemplatePre.data
      (deleteEmployeeTemplatePost1.data ++ deleteEmployeeTemplatePost2.data) []
      del_split delPre_free
      (dollarFree_append delPost1_free delPost2_free) (by decide) hv
    refine ⟨"Delete an employee and all related records",
      deleteEmployeeTemplatePre.data,
      (deleteEmployeeTemplatePost1.data ++ deleteEmployeeTemplatePost2.data) ++ [],
      del_split, ?_, h2⟩
    have hh : getPromptHandler "delete-employee" args =
        Except.ok ⟨"Delete an employee and all related records",
          [⟨"user", jsReplaceFirst deleteEmployeeTemplate "$ARGUMENTS"
            (lookupArg args "employee_identifier")⟩]⟩ := rfl
    rw [hh, String.ext h1]
  · obtain ⟨h1, h2⟩ := getPrompt_template_prop manageDepartmentsTemplate
      (lookupArg args "instructions") manageDepartmentsTemplatePre.data
      (manageDepartmentsTemplatePost1.data ++ manageDepartmentsTemplatePost2.data) []
      mg_split mgPre_free
      (dollarFree_append mgPost1_free mgPost2_free) (by decide) hv
    refine ⟨"Manage departments (insert or delete)",
      manageDepartmentsTemplatePre.data,
      (manageDepartmentsTemplatePost1.data ++ manageDepartmentsTemplatePost2.data) ++ [],
      mg_split, ?_, h2⟩
    have hh : getPromptHandler "manage-departments" args =
        Except.ok ⟨"Manage departments (insert or delete)",
          [⟨"user", jsReplaceFirst manageDepartmentsTemplate "$ARGUMENTS"
            (lookupArg args "instructions")⟩]⟩ := rfl
    rw [hh, String.ext h1]

/-- Witness for C6: the amended claim at a dollar-free concrete argument. -/
theorem claim_C6_witness :
    (([("instructions", "count female employees")] : List (String × String)).lookup
        "instructions" = none →
      lookupArg [("instructions", "count female employees")] "instructions" = "") ∧
    ∃ d b a,
      queryEmployeesTemplate.data = b ++ "$ARGUMENTS".data ++ a ∧
      getPromptHandler "query-employees" [("instructions", "count female employees")] =
        Except.ok ⟨d, [⟨"user", String.mk (b ++
          (lookupArg [("instructions", "count female employees")] "instructions").data
          ++ a)⟩]⟩ ∧
      ¬ ("$ARGUMENTS".data <:+:
          (String.mk (b ++
            (lookupArg [("instructions", "count female employees")] "instructions").data
            ++ a)).data) :=
  claim_C6_prompt_substitution [("instructions", "count female employees")]
    "query-employees" "instructions" queryEmployeesTemplate
    (List.mem_cons_self _ _) (by decide)

/-- Counterexample for C6 as originally stated: with the argument value `$&`,
`String.prototype.replace` substitutes the matched text itself, so the
returned message still contains the literal `$ARGUMENTS` token and is not the
verbatim substitution the claim describes. -/
theorem claim_C6_counterexample :
    ∃ r, getPromptHandler "query-employees" [("instructions", "$&")] = Except.ok r ∧
      ∃ m, r.messages = [m] ∧
        ("$ARGUMENTS".data <:+: m.text.data) ∧
        m.text ≠ specVerbatimReplaceFirst queryEmployeesTemplate "$ARGUMENTS" "$&" := by
  have heq : (jsReplaceFirst queryEmployeesTemplate "$ARGUMENTS" "$&").data =
      queryEmployeesTemplatePre.data ++ "$ARGUMENTS".data ++
        (queryEmployeesTemplatePost.data ++ []) := by
    have h0 : (jsReplaceFirst queryEmployeesTemplate "$ARGUMENTS" "$&").data =
        queryEmployeesTemplatePre.data ++
          jsSubstitution "$ARGUMENTS".data queryEmployeesTemplatePre.data
            (queryEmployeesTemplatePost.data ++ []) ("$&" : String).data ++
          (queryEmployeesTemplatePost.data ++ []) :=
      jsReplaceFirst_eq _ _ _ _ qe_split qePre_free
    rw [h0, show ("$&" : String).data = ['$', '&'] from rfl, jsSubstitution_dollarAmp]
  refine ⟨⟨"Query employees table using natural language instructions",
      [⟨"user", jsReplaceFirst queryEmployeesTemplate "$ARGUMENTS" "$&"⟩]⟩, rfl,
    ⟨"user", jsReplaceFirst queryEmployeesTemplate "$ARGUMENTS" "$&"⟩, rfl, ?_, ?_⟩
  · rw [heq]
    exact List.infix_append _ _ _
  · intro hcontra
    have h2 : (specVerbatimReplaceFirst queryEmployeesTemplate "$ARGUMENTS" "$&").data =
        queryEmployeesTemplatePre.data ++ ("$&" : String).data ++
          (queryEmployeesTemplatePost.data ++ []) :=
      specVerbatimReplaceFirst_eq _ _ _ _ qe_split qePre_free
    have hd := congrArg String.data hcontra
    rw [heq, h2] at hd
    have hlen := congrArg List.length hd
    simp [List.length_append] at hlen
    omega

/-! ## Claim C7 -/

/-- C7: an unknown prompt name and an unknown resource URI fail hard — the
handlers produce an uncaught `Except.error` (`Unknown prompt: <name>` /
`Unknown resource: <uri>`) that propagates to the protocol layer — whereas a
tool-call failure is soft: the call-tool handler catches it and re-encodes it
as an `isError` envelope. -/
theorem claim_C7_hard_vs_soft (name uri schemaContent dbName toolName : String)
    (args : List (String × String)) (p : ToolParams) (connected : Bool)
    (hname : name ∉
      ["query-employees", "insert-employee", "delete-employee", "manage-departments"])
    (huri : uri ≠ "bun-db-mcp://general-database") :
    getPromptHandler name args = Except.error ("Unknown prompt: " ++ name) ∧
    readResourceHandler schemaContent uri =
      Except.error ("Unknown resource: " ++ uri) ∧
    (∀ msg, handleToolCall connected dbName toolName p = Except.error msg →
      callToolRequestHandler connected dbName toolName p =
        (⟨"Error: " ++ msg, true⟩, connected)) := by
  obtain ⟨h1, h2, h3, h4⟩ : ¬name = "query-employees" ∧ ¬name = "insert-employee" ∧
      ¬name = "delete-employee" ∧ ¬name = "manage-departments" := by simpa using hname
  refine ⟨?_, ?_, ?_⟩
  · simp [getPromptHandler, h1, h2, h3, h4]
  · simp [readResourceHandler, huri]
  · intro msg h
    simp [callToolRequestHandler, h]

/-- Witness for C7: a bogus prompt name and a bogus resource URI. -/
theorem claim_C7_witness :
    getPromptHandler "bogus" [] = Except.error ("Unknown prompt: " ++ "bogus") ∧
    readResourceHandler "" "bun-db-mcp://other" =
      Except.error ("Unknown resource: " ++ "bun-db-mcp://other") := by
  have h := claim_C7_hard_vs_soft "bogus" "bun-db-mcp://other" "" "" ""
    [] ⟨"", "", [], "", [], []⟩ true (by decide) (by decide)
  exact ⟨h.1, h.2.1⟩
